import Mathlib

set_option maxHeartbeats 1000000

/-!
Shallow embedding of the channel-bootstrap layer of aws-c-io
(source/channel_bootstrap.c) and verification of its callback contract.

Modelling conventions:
* C machine integers are `Nat` with an explicit `% 256` where the source
  stores into a `uint8_t` field (`addresses_count`, `failed_count`).
* Error codes are `Nat`; `0` is `AWS_ERROR_SUCCESS`.  The concrete values of
  the named nonzero error codes are irrelevant to the source logic; they are
  fixed nonzero constants here.
* Each C function that mutates a `client_connection_args` /
  `server_connection_args` becomes a Lean function from the state to the new
  state, paired with the list of externally observable actions it performs
  (user callbacks invoked, sockets closed/freed, resolver feedback, tasks
  scheduled, references released).  The order of the emitted actions follows
  the order of the corresponding statements in the C source.
* Callback-function-pointer fields are modelled by `Bool` flags recording
  whether the pointer is non-NULL (e.g. `shutdown_callback`,
  `has_user_negotiation_result`).  Pointer identity never matters to the
  control flow, only NULL-ness does.
* Environment outcomes (did an allocation succeed, what did `aws_last_error`
  return, was a task dispatched with cancelled status) are parameters of the
  corresponding function, so that every execution of the source corresponds
  to some choice of parameters.
-/

namespace ChannelBootstrap

/-- Constant `AWS_ERROR_UNKNOWN`: a fixed nonzero error code (its numeric value is
irrelevant to channel_bootstrap.c; only its being nonzero matters). -/
def AWS_ERROR_UNKNOWN : Nat := 36

/-- Constant `AWS_IO_SOCKET_INVALID_OPTIONS`: fixed nonzero error code raised for a
non-stream socket passed to a TLS entry point. -/
def AWS_IO_SOCKET_INVALID_OPTIONS : Nat := 1051

/-- Socket domains carried in `aws_socket_options`. -/
inductive SocketDomain
  | ipv4
  | ipv6
  | local_
  deriving DecidableEq, Repr

/-- Socket types carried in `aws_socket_options`. -/
inductive SocketType
  | stream
  | dgram
  deriving DecidableEq, Repr

/-- The fields of `aws_socket_options` the bootstrap control flow reads. -/
structure SocketOptions where
  domain : SocketDomain
  type : SocketType
  deriving DecidableEq, Repr

/-- Observable actions of the client-bootstrap code, in source order. -/
inductive ClientOut
  | setupCb (err : Nat) (hasChannel : Bool)
  | shutdownCb (err : Nat)
  | recordFailure
  | socketClose
  | socketCleanUp
  | socketRelease
  | channelShutdown (err : Nat)
  | channelDestroy
  | userNegotiationResult (err : Nat)
  | scheduleAttemptTask
  | taskAlloc
  | taskDataFree
  | releaseRef
  | acquireRef
  deriving DecidableEq, Repr

/-- The mutable fields of `struct client_connection_args` that the control
flow of channel_bootstrap.c reads or writes.  `addresses_count` and
`failed_count` are `uint8_t` in the source, hence kept `< 256` by explicit
`% 256` at every store. -/
structure ClientConnectionArgs where
  setup_called : Bool
  /-- whether the `shutdown_callback` function pointer is non-NULL -/
  shutdown_callback : Bool
  connection_chosen : Bool
  addresses_count : Nat
  failed_count : Nat
  ref_count : Nat
  /-- Field `outgoing_options.domain` -/
  domain : SocketDomain
  /-- Field `channel_data.use_tls` -/
  use_tls : Bool
  /-- whether `channel_data.on_protocol_negotiated` is non-NULL -/
  has_alpn : Bool
  /-- whether `channel_data.user_on_negotiation_result` is non-NULL -/
  has_user_negotiation_result : Bool
  deriving DecidableEq, Repr

/-- Model of `s_client_connection_args_release`: drop one reference.  (The freeing of
the state when the count hits zero has no further observable action in this
model; the bootstrap release it performs is not tracked.) -/
def s_client_connection_args_release (args : ClientConnectionArgs) :
    ClientConnectionArgs :=
  { args with ref_count := args.ref_count - 1 }

/-- Model of `s_connection_args_setup_callback`: invoke the user setup callback at most
once; on an error delivery, NULL out the shutdown callback; then release one
reference.  Mirrors channel_bootstrap.c lines 219-236. -/
def s_connection_args_setup_callback (args : ClientConnectionArgs)
    (error_code : Nat) (hasChannel : Bool) :
    ClientConnectionArgs × List ClientOut :=
  if args.setup_called then (args, [])
  else
    (s_client_connection_args_release
      { args with
          setup_called := true
          shutdown_callback :=
            if error_code ≠ 0 then false else args.shutdown_callback },
     [ClientOut.setupCb error_code hasChannel, ClientOut.releaseRef])

/-- Model of `s_connection_args_shutdown_callback`: if setup was never delivered,
deliver it now with the error (substituting `AWS_ERROR_UNKNOWN` for zero);
otherwise invoke the user's shutdown callback when its pointer is non-NULL.
Mirrors channel_bootstrap.c lines 238-252. -/
def s_connection_args_shutdown_callback (args : ClientConnectionArgs)
    (error_code : Nat) : ClientConnectionArgs × List ClientOut :=
  if !args.setup_called then
    s_connection_args_setup_callback args
      (if error_code ≠ 0 then error_code else AWS_ERROR_UNKNOWN) false
  else if args.shutdown_callback then
    (args, [ClientOut.shutdownCb error_code])
  else (args, [])

/-- Model of `s_tls_client_on_negotiation_result`: proxy the user's negotiation-result
callback, then on error shut the channel down, on success deliver user setup
with the channel.  Mirrors channel_bootstrap.c lines 254-281. -/
def s_tls_client_on_negotiation_result (args : ClientConnectionArgs)
    (err_code : Nat) : ClientConnectionArgs × List ClientOut :=
  let proxy :=
    if args.has_user_negotiation_result then
      [ClientOut.userNegotiationResult err_code]
    else []
  if err_code ≠ 0 then
    (args, proxy ++ [ClientOut.channelShutdown err_code])
  else
    let res := s_connection_args_setup_callback args 0 true
    (res.1, proxy ++ res.2)

/-- Outcome of the construction work done inside
`s_on_client_channel_on_setup_completed` when the channel came up without
error: either the slot/socket-handler/TLS construction all succeeded, or some
step failed with `aws_last_error() = err`.  (The individual construction
steps only determine this error code; nothing else in the control flow
depends on which step failed.) -/
inductive ChannelBuildOutcome
  | ok
  | failed (err : Nat)
  deriving DecidableEq, Repr

/-- Model of `s_on_client_channel_on_setup_completed`: on channel-setup success, build
the socket handler (and TLS/ALPN when configured); without TLS deliver user
setup immediately; on any failure (including a nonzero incoming error) shut
the channel down with the error.  Mirrors channel_bootstrap.c lines 383-451. -/
def s_on_client_channel_on_setup_completed (args : ClientConnectionArgs)
    (error_code : Nat) (build : ChannelBuildOutcome) :
    ClientConnectionArgs × List ClientOut :=
  if error_code = 0 then
    match build with
    | ChannelBuildOutcome.ok =>
        if args.use_tls then (args, [])
        else s_connection_args_setup_callback args 0 true
    | ChannelBuildOutcome.failed e => (args, [ClientOut.channelShutdown e])
  else (args, [ClientOut.channelShutdown error_code])

/-- Model of `s_on_client_channel_on_shutdown`: run the shutdown-callback logic, then
destroy the channel, clean up and free the socket, and release one
reference.  Mirrors channel_bootstrap.c lines 453-471. -/
def s_on_client_channel_on_shutdown (args : ClientConnectionArgs)
    (error_code : Nat) : ClientConnectionArgs × List ClientOut :=
  let res := s_connection_args_shutdown_callback args error_code
  (s_client_connection_args_release res.1,
    res.2 ++ [ClientOut.channelDestroy, ClientOut.socketCleanUp,
              ClientOut.socketRelease, ClientOut.releaseRef])

/-- The record-connection-failure block at the top of the error-or-chosen
branch of `s_on_client_connection_established` (channel_bootstrap.c lines
488-506): the failed address is reported to the resolver only for non-local
domains with a nonzero error, and only when the `aws_string_new_from_c_str`
for the address text succeeds (`addrAllocOk`). -/
def recordOuts (args : ClientConnectionArgs) (error_code : Nat)
    (addrAllocOk : Bool) : List ClientOut :=
  if args.domain ≠ SocketDomain.local_ ∧ error_code ≠ 0 then
    (if addrAllocOk then [ClientOut.recordFailure] else [])
  else []

/-- Model of `s_on_client_connection_established`: a socket `connect` completed with
`error_code`; `addrAllocOk` is whether the `aws_string_new_from_c_str` for the
failed address succeeds, `channelNewOk` whether `aws_channel_new` succeeds on
the winner path.  Mirrors channel_bootstrap.c lines 473-563. -/
def s_on_client_connection_established (args : ClientConnectionArgs)
    (error_code : Nat) (addrAllocOk : Bool) (channelNewOk : Bool) :
    ClientConnectionArgs × List ClientOut :=
  let args :=
    if error_code ≠ 0 then
      { args with failed_count := (args.failed_count + 1) % 256 }
    else args
  if error_code ≠ 0 ∨ args.connection_chosen = true then
    let recOuts := recordOuts args error_code addrAllocOk
    let g :=
      if args.failed_count = args.addresses_count then
        s_connection_args_setup_callback args error_code false
      else (args, [])
    (s_client_connection_args_release g.1,
      recOuts ++ [ClientOut.socketClose, ClientOut.socketCleanUp,
                  ClientOut.socketRelease] ++ g.2 ++ [ClientOut.releaseRef])
  else
    let args := { args with connection_chosen := true }
    if channelNewOk then (args, [])
    else
      let args := { args with failed_count := (args.failed_count + 1) % 256 }
      let g :=
        if args.failed_count = args.addresses_count then
          s_connection_args_setup_callback args error_code false
        else (args, [])
      (g.1, [ClientOut.socketCleanUp, ClientOut.socketRelease] ++ g.2)

/-- Environment outcome of one dispatch of the `s_attempt_connection` task:
dispatched cancelled, or one of the three failure points with
`aws_last_error() = err`, or `aws_socket_connect` accepted the request (the
established callback will arrive later). -/
inductive AttemptOutcome
  | cancelled
  | socketAllocFailed (err : Nat)
  | socketInitFailed (err : Nat)
  | socketConnectFailed (err : Nat)
  | connectStarted
  deriving DecidableEq, Repr

/-- The shared failure tail of `s_attempt_connection` (labels
`socket_connect_failed` .. `cleanup_task`): bump `failed_count`, deliver
setup with the latched error when this was the last outstanding attempt,
release the task's reference and free the task data.  `preOuts` are the
actions of the particular failure point that jumped here. -/
def s_attempt_fail_path (args : ClientConnectionArgs) (errCode : Nat)
    (preOuts : List ClientOut) : ClientConnectionArgs × List ClientOut :=
  let args := { args with failed_count := (args.failed_count + 1) % 256 }
  let g :=
    if args.failed_count = args.addresses_count then
      s_connection_args_setup_callback args errCode false
    else (args, [])
  (s_client_connection_args_release g.1,
    preOuts ++ g.2 ++ [ClientOut.releaseRef, ClientOut.taskDataFree])

/-- Model of `s_attempt_connection`: one per-address connection task.  A cancelled
dispatch keeps the local `err_code` at `0`.  Mirrors channel_bootstrap.c
lines 574-628. -/
def s_attempt_connection (args : ClientConnectionArgs) (o : AttemptOutcome) :
    ClientConnectionArgs × List ClientOut :=
  match o with
  | AttemptOutcome.connectStarted => (args, [ClientOut.taskDataFree])
  | AttemptOutcome.cancelled => s_attempt_fail_path args 0 []
  | AttemptOutcome.socketAllocFailed e => s_attempt_fail_path args e []
  | AttemptOutcome.socketInitFailed e =>
      s_attempt_fail_path args e [ClientOut.socketRelease]
  | AttemptOutcome.socketConnectFailed e =>
      s_attempt_fail_path args e
        [ClientOut.recordFailure, ClientOut.socketCleanUp,
         ClientOut.socketRelease]

/-- Per-address outcome of the allocation loop in `s_on_host_resolved`:
the `aws_mem_calloc` of the task data failed, the `aws_host_address_copy`
failed, or both succeeded. -/
inductive TaskAllocOutcome
  | ok
  | callocFailed
  | copyFailed
  deriving DecidableEq, Repr

/-- The actions of the scheduling loop of `s_on_host_resolved`: per address,
acquire one reference then schedule the `attempt_connection` task. -/
def scheduleOuts : Nat → List ClientOut
  | 0 => []
  | n + 1 =>
      ClientOut.acquireRef :: ClientOut.scheduleAttemptTask :: scheduleOuts n

/-- Model of `s_on_host_resolved`: on resolver error, deliver setup with it.  On
success, record `addresses_count` (a `uint8_t` store, hence `% 256`),
preallocate one task datum per address; on the first allocation failure at
index `i` free every non-NULL `tasks[j]` with `j ≤ i` (that is `i` task data,
plus `tasks[i]` itself when its calloc succeeded and only the address copy
failed) and deliver setup with `aws_last_error() = allocErr`; otherwise
acquire one reference per task and schedule them all.  Mirrors
channel_bootstrap.c lines 630-718. -/
def s_on_host_resolved (args : ClientConnectionArgs) (err_code : Nat)
    (host_addresses_len : Nat) (alloc : Nat → TaskAllocOutcome)
    (allocErr : Nat) : ClientConnectionArgs × List ClientOut :=
  if err_code ≠ 0 then
    s_connection_args_setup_callback args err_code false
  else
    let args := { args with addresses_count := host_addresses_len % 256 }
    match (List.range host_addresses_len).find?
        (fun i => alloc i ≠ TaskAllocOutcome.ok) with
    | some i =>
        let allocated := i + (if alloc i = TaskAllocOutcome.copyFailed then 1 else 0)
        let res := s_connection_args_setup_callback args allocErr false
        (res.1,
          List.replicate allocated ClientOut.taskAlloc ++
          List.replicate allocated ClientOut.taskDataFree ++ res.2)
    | none =>
        ({ args with ref_count := args.ref_count + host_addresses_len },
          List.replicate host_addresses_len ClientOut.taskAlloc ++
          scheduleOuts host_addresses_len)

/-! ### Counting helpers over the observable actions -/

/-- Is this action an invocation of the user setup callback? -/
def isSetupCb : ClientOut → Bool
  | ClientOut.setupCb _ _ => true
  | _ => false

/-- Number of user setup-callback invocations in an action list. -/
def setupCbCount (outs : List ClientOut) : Nat := outs.countP isSetupCb

/-- Is this action the scheduling of an `attempt_connection` task? -/
def isScheduleAttempt : ClientOut → Bool
  | ClientOut.scheduleAttemptTask => true
  | _ => false

/-- Number of `attempt_connection` tasks scheduled. -/
def scheduleCount (outs : List ClientOut) : Nat := outs.countP isScheduleAttempt

/-- Is this action a task-data allocation? -/
def isTaskAlloc : ClientOut → Bool
  | ClientOut.taskAlloc => true
  | _ => false

/-- Number of task-data allocations. -/
def taskAllocCount (outs : List ClientOut) : Nat := outs.countP isTaskAlloc

/-- Is this action a task-data free? -/
def isTaskDataFree : ClientOut → Bool
  | ClientOut.taskDataFree => true
  | _ => false

/-- Number of task-data frees. -/
def taskFreeCount (outs : List ClientOut) : Nat := outs.countP isTaskDataFree

/-- Is this action a release of one connection-state reference? -/
def isReleaseRef : ClientOut → Bool
  | ClientOut.releaseRef => true
  | _ => false

/-- Number of connection-state reference releases. -/
def releaseRefCount (outs : List ClientOut) : Nat := outs.countP isReleaseRef

/-! ### The client connect-race as an event machine

One call into `new_*_socket_channel` that reached a successful resolution of
`n` addresses schedules `n` `attempt_connection` tasks on one event loop; all
subsequent callbacks for this race run serialized on that loop.  An execution
is therefore a sequence of events, each being one of the entry points of the
source dispatched with its environment outcome.  The machine state carries
the `client_connection_args` plus instrumentation counting the outstanding
obligations (`tasks` not yet dispatched, `conns` connect-completion callbacks
not yet delivered) and the phase of the winner's channel chain. -/

/-- Phase of the winner's channel chain (also reused for the server's
per-accepted-connection chain, where `closed` doubles as "finished"). -/
inductive Phase
  | racing
  | awaitSetup
  | awaitNegotiation
  | awaitShutdownFail
  | live
  | closed
  deriving DecidableEq, Repr

/-- Machine state: the connection args plus obligation instrumentation. -/
structure MState where
  args : ClientConnectionArgs
  /-- scheduled `attempt_connection` tasks not yet dispatched -/
  tasks : Nat
  /-- issued `aws_socket_connect` calls whose completion has not arrived -/
  conns : Nat
  phase : Phase
  deriving DecidableEq, Repr

/-- One event: an entry point of the source dispatched with its environment
outcome. -/
inductive CEvent
  | attempt (o : AttemptOutcome)
  | established (error : Nat) (addrAllocOk : Bool) (channelNewOk : Bool)
  | chanSetup (error : Nat) (build : ChannelBuildOutcome)
  | negotiation (err : Nat)
  | chanShutdown (error : Nat)
  deriving DecidableEq, Repr

/-- Dispatch one event to the corresponding source function and update the
obligation instrumentation. -/
def stepClient (s : MState) : CEvent → MState × List ClientOut
  | CEvent.attempt o =>
      let res := s_attempt_connection s.args o
      ({ args := res.1
         tasks := s.tasks - 1
         conns :=
           match o with
           | AttemptOutcome.connectStarted => s.conns + 1
           | _ => s.conns
         phase := s.phase }, res.2)
  | CEvent.established error addrAllocOk channelNewOk =>
      let res := s_on_client_connection_established s.args error addrAllocOk
        channelNewOk
      ({ args := res.1
         tasks := s.tasks
         conns := s.conns - 1
         phase :=
           if error = 0 ∧ s.args.connection_chosen = false then
             (if channelNewOk then Phase.awaitSetup else Phase.racing)
           else s.phase }, res.2)
  | CEvent.chanSetup error build =>
      let res := s_on_client_channel_on_setup_completed s.args error build
      ({ args := res.1
         tasks := s.tasks
         conns := s.conns
         phase :=
           if error = 0 then
             match build with
             | ChannelBuildOutcome.ok =>
                 if s.args.use_tls then Phase.awaitNegotiation else Phase.live
             | ChannelBuildOutcome.failed _ => Phase.awaitShutdownFail
           else Phase.awaitShutdownFail }, res.2)
  | CEvent.negotiation err =>
      let res := s_tls_client_on_negotiation_result s.args err
      ({ args := res.1
         tasks := s.tasks
         conns := s.conns
         phase := if err = 0 then Phase.live else Phase.awaitShutdownFail },
       res.2)
  | CEvent.chanShutdown error =>
      let res := s_on_client_channel_on_shutdown s.args error
      ({ args := res.1
         tasks := s.tasks
         conns := s.conns
         phase := Phase.closed }, res.2)

/-- Is the event possible in the current state?  An `attempt` dispatch needs
an outstanding task, an `established` completion an outstanding connect, and
the channel-chain callbacks arrive in the order the source wires them.
Every environment outcome of each callback is allowed, including a failing
`aws_channel_new` on the winner path. -/
def validEventB (s : MState) : CEvent → Bool
  | CEvent.attempt _ => decide (0 < s.tasks)
  | CEvent.established _ _ _ => decide (0 < s.conns)
  | CEvent.chanSetup _ _ => decide (s.phase = Phase.awaitSetup)
  | CEvent.negotiation _ => decide (s.phase = Phase.awaitNegotiation)
  | CEvent.chanShutdown _ =>
      decide (s.phase = Phase.awaitShutdownFail ∨ s.phase = Phase.live)

/-- Run a sequence of events, concatenating the emitted actions. -/
def runClient (s : MState) : List CEvent → MState × List ClientOut
  | [] => (s, [])
  | e :: es =>
      ((runClient (stepClient s e).1 es).1,
        (stepClient s e).2 ++ (runClient (stepClient s e).1 es).2)

/-- Every event of the sequence is valid in the state where it is
dispatched. -/
def validRunB (s : MState) : List CEvent → Bool
  | [] => true
  | e :: es => validEventB s e && validRunB (stepClient s e).1 es

/-- The `client_connection_args` right after `s_on_host_resolved` scheduled
`n` connection tasks (`n` the resolved address count, here taken `≤ 255`):
fresh one-shot flags, `n` latched into the `uint8_t` counter, base reference
plus one per task. -/
def initArgs (n : Nat) (useTls hasAlpn hasUserNeg : Bool)
    (domain : SocketDomain) : ClientConnectionArgs :=
  { setup_called := false
    shutdown_callback := true
    connection_chosen := false
    addresses_count := n % 256
    failed_count := 0
    ref_count := 1 + n
    domain := domain
    use_tls := useTls
    has_alpn := hasAlpn
    has_user_negotiation_result := hasUserNeg }

/-- Machine state at the start of the race. -/
def initState (n : Nat) (useTls hasAlpn hasUserNeg : Bool)
    (domain : SocketDomain) : MState :=
  { args := initArgs n useTls hasAlpn hasUserNeg domain
    tasks := n
    conns := 0
    phase := Phase.racing }

/-- An execution is complete when every scheduled task was dispatched, every
issued connect completed, and the winner's channel chain (if any) has fully
shut down. -/
abbrev CompleteState (s : MState) : Prop :=
  s.tasks = 0 ∧ s.conns = 0 ∧
    (s.phase = Phase.racing ∨ s.phase = Phase.closed)

/-- Claim C1's per-delivery dichotomy, as the spec states it: every setup
delivery is either a success carrying a channel or an error carrying none. -/
def ClientSetupDichotomy (outs : List ClientOut) : Prop :=
  ∀ err ch, ClientOut.setupCb err ch ∈ outs →
    (err = 0 ∧ ch = true) ∨ (err ≠ 0 ∧ ch = false)

/-- Claim C1 as stated: over every complete valid race execution, the setup
callback fires exactly once, each delivery is success-with-channel or
error-without-channel, and the shutdown callback fires iff setup reported
success. -/
def ClaimC1 : Prop :=
  ∀ (n : Nat) (useTls hasAlpn hasUserNeg : Bool) (domain : SocketDomain)
    (es : List CEvent),
    1 ≤ n → n ≤ 255 →
    validRunB (initState n useTls hasAlpn hasUserNeg domain) es = true →
    CompleteState (runClient (initState n useTls hasAlpn hasUserNeg domain) es).1 →
    setupCbCount (runClient (initState n useTls hasAlpn hasUserNeg domain) es).2 = 1 ∧
    ClientSetupDichotomy (runClient (initState n useTls hasAlpn hasUserNeg domain) es).2 ∧
    ((∃ e, ClientOut.shutdownCb e ∈ (runClient (initState n useTls hasAlpn hasUserNeg domain) es).2) ↔
      ClientOut.setupCb 0 true ∈ (runClient (initState n useTls hasAlpn hasUserNeg domain) es).2)

/-- Claim C2 as stated: in the error-or-already-chosen branch of
`s_on_client_connection_established`, `failed_count` is (unconditionally)
incremented, the address is recorded only for non-local domains with a
nonzero error, the socket is closed and freed, setup is delivered when the
counter reaches `addresses_count`, and exactly one reference is released by
the handler itself. -/
def ClaimC2 : Prop :=
  ∀ (args : ClientConnectionArgs) (error_code : Nat) (aok cok : Bool),
    (error_code ≠ 0 ∨ args.connection_chosen = true) →
    args.failed_count + 1 < 256 →
    (s_on_client_connection_established args error_code aok cok).1.failed_count =
        args.failed_count + 1 ∧
    (ClientOut.recordFailure ∈ (s_on_client_connection_established args error_code aok cok).2 →
      args.domain ≠ SocketDomain.local_ ∧ error_code ≠ 0) ∧
    ClientOut.socketClose ∈ (s_on_client_connection_established args error_code aok cok).2 ∧
    ClientOut.socketCleanUp ∈ (s_on_client_connection_established args error_code aok cok).2 ∧
    ClientOut.socketRelease ∈ (s_on_client_connection_established args error_code aok cok).2 ∧
    (args.failed_count + 1 = args.addresses_count → args.setup_called = false →
      ClientOut.setupCb error_code false ∈
        (s_on_client_connection_established args error_code aok cok).2) ∧
    releaseRefCount (s_on_client_connection_established args error_code aok cok).2 = 1

/-! ### Server bootstrap -/

/-- Observable actions of the server-bootstrap code. -/
inductive ServerOut
  | incomingCb (err : Nat) (hasChannel : Bool)
  | shutdownCb (err : Nat)
  | destroyCb
  | userNegotiationResult (err : Nat)
  | channelShutdown (err : Nat)
  | channelDestroy
  | socketCleanUp
  | socketRelease
  | channelDataFree
  | releaseRef
  | acquireRef
  | stopAccept
  | listenerCleanUp
  | scheduleDestroyTask (loop : Nat)
  deriving DecidableEq, Repr

/-- The fields of `struct server_connection_args` the control flow reads or
writes.  `listener_loop` is the event loop the listener socket is assigned
to. -/
structure ServerConnectionArgs where
  ref_count : Nat
  use_tls : Bool
  has_alpn : Bool
  /-- whether the `destroy_callback` function pointer is non-NULL -/
  has_destroy_callback : Bool
  has_user_negotiation_result : Bool
  listener_loop : Nat
  deriving DecidableEq, Repr

/-- The fields of `struct server_channel_data` the control flow reads or
writes. -/
structure ServerChannelData where
  incoming_called : Bool
  deriving DecidableEq, Repr

/-- Model of `s_server_connection_args_acquire`: atomically add one reference (the
0 → 1 bootstrap pin has no further observable action in this model). -/
def s_server_connection_args_acquire (args : ServerConnectionArgs) :
    ServerConnectionArgs × List ServerOut :=
  ({ args with ref_count := args.ref_count + 1 }, [ServerOut.acquireRef])

/-- Model of `s_server_connection_args_release`: atomically drop one reference; when
the old count was `1` (so the count drops to zero), fire the destroy callback
if one was supplied, then free the state.  Mirrors channel_bootstrap.c lines
957-973. -/
def s_server_connection_args_release (args : ServerConnectionArgs) :
    ServerConnectionArgs × List ServerOut :=
  ({ args with ref_count := args.ref_count - 1 },
    ServerOut.releaseRef ::
      (if args.ref_count = 1 ∧ args.has_destroy_callback then
        [ServerOut.destroyCb]
      else []))

/-- Model of `s_server_incoming_callback`: invoke the user's incoming callback and set
the one-shot flag.  NOTE: unlike the client's setup callback, the source has
only an assertion here, no guard; the callback is invoked unconditionally.
Mirrors channel_bootstrap.c lines 975-984. -/
def s_server_incoming_callback (cd : ServerChannelData) (error_code : Nat)
    (hasChannel : Bool) : ServerChannelData × List ServerOut :=
  ({ cd with incoming_called := true },
    [ServerOut.incomingCb error_code hasChannel])

/-- Model of `s_tls_server_on_negotiation_result`: proxy the user callback; on error
shut the channel down, on success deliver the incoming callback with the
channel.  Mirrors channel_bootstrap.c lines 986-1012. -/
def s_tls_server_on_negotiation_result (cd : ServerChannelData)
    (args : ServerConnectionArgs) (err_code : Nat) :
    ServerChannelData × List ServerOut :=
  let proxy :=
    if args.has_user_negotiation_result then
      [ServerOut.userNegotiationResult err_code]
    else []
  if err_code ≠ 0 then (cd, proxy ++ [ServerOut.channelShutdown err_code])
  else
    let res := s_server_incoming_callback cd err_code true
    (res.1, proxy ++ res.2)

/-- Model of `s_on_server_channel_on_setup_completed`: on a nonzero incoming error,
destroy the channel, clean up and free the accepted socket, deliver the
incoming callback with the error and no channel, free the channel data and
release one reference.  On success, build the socket handler (and TLS/ALPN
when configured); without TLS deliver the incoming callback immediately; on
a build failure shut the channel down with `aws_last_error()`.  Mirrors
channel_bootstrap.c lines 1117-1196. -/
def s_on_server_channel_on_setup_completed (cd : ServerChannelData)
    (args : ServerConnectionArgs) (error_code : Nat)
    (build : ChannelBuildOutcome) :
    ServerChannelData × ServerConnectionArgs × List ServerOut :=
  if error_code ≠ 0 then
    let inc := s_server_incoming_callback cd error_code false
    let rel := s_server_connection_args_release args
    (inc.1, rel.1,
      [ServerOut.channelDestroy, ServerOut.socketCleanUp,
       ServerOut.socketRelease] ++ inc.2 ++ [ServerOut.channelDataFree] ++
        rel.2)
  else
    match build with
    | ChannelBuildOutcome.failed e =>
        (cd, args, [ServerOut.channelShutdown e])
    | ChannelBuildOutcome.ok =>
        if args.use_tls then (cd, args, [])
        else
          let inc := s_server_incoming_callback cd 0 true
          (inc.1, args, inc.2)

/-- Model of `s_on_server_channel_on_shutdown`: if the incoming callback has not been
delivered yet, deliver it with the error (substituting `AWS_ERROR_UNKNOWN`
for zero) and no channel; otherwise invoke the user's shutdown callback.
Then destroy the channel, clean up and free the socket, release one
reference and free the channel data.  Mirrors channel_bootstrap.c lines
1198-1225. -/
def s_on_server_channel_on_shutdown (cd : ServerChannelData)
    (args : ServerConnectionArgs) (error_code : Nat) :
    ServerChannelData × ServerConnectionArgs × List ServerOut :=
  let front :=
    if !cd.incoming_called then
      s_server_incoming_callback cd
        (if error_code ≠ 0 then error_code else AWS_ERROR_UNKNOWN) false
    else (cd, [ServerOut.shutdownCb error_code])
  let rel := s_server_connection_args_release args
  (front.1, rel.1,
    front.2 ++ [ServerOut.channelDestroy, ServerOut.socketCleanUp,
                ServerOut.socketRelease] ++ rel.2 ++
      [ServerOut.channelDataFree])

/-- Environment outcome of one `s_on_server_connection_result` invocation:
the accept itself failed, or one of the three post-accept steps failed with
`aws_last_error() = err`, or a channel was created for the accepted socket. -/
inductive AcceptOutcome
  | acceptError (err : Nat)
  | allocFailed (err : Nat)
  | assignFailed (err : Nat)
  | channelNewFailed (err : Nat)
  | ok
  deriving DecidableEq, Repr

/-- Model of `s_on_server_connection_result`: acquire a reference; on accept error,
deliver the incoming callback with the error and release.  On a post-accept
failure, deliver the incoming callback with `aws_last_error()`, clean up and
free the new socket, release.  On success, hand back a fresh
`server_channel_data` (the channel's setup callback will arrive later).
Mirrors channel_bootstrap.c lines 1227-1295. -/
def s_on_server_connection_result (args : ServerConnectionArgs)
    (o : AcceptOutcome) :
    ServerConnectionArgs × Option ServerChannelData × List ServerOut :=
  let acq := s_server_connection_args_acquire args
  match o with
  | AcceptOutcome.acceptError e =>
      let rel := s_server_connection_args_release acq.1
      (rel.1, none, acq.2 ++ [ServerOut.incomingCb e false] ++ rel.2)
  | AcceptOutcome.allocFailed e =>
      let rel := s_server_connection_args_release acq.1
      (rel.1, none,
        acq.2 ++ [ServerOut.incomingCb e false, ServerOut.socketCleanUp,
                  ServerOut.socketRelease] ++ rel.2)
  | AcceptOutcome.assignFailed e =>
      let rel := s_server_connection_args_release acq.1
      (rel.1, none,
        acq.2 ++ [ServerOut.channelDataFree, ServerOut.incomingCb e false,
                  ServerOut.socketCleanUp, ServerOut.socketRelease] ++ rel.2)
  | AcceptOutcome.channelNewFailed e =>
      let rel := s_server_connection_args_release acq.1
      (rel.1, none,
        acq.2 ++ [ServerOut.channelDataFree, ServerOut.incomingCb e false,
                  ServerOut.socketCleanUp, ServerOut.socketRelease] ++ rel.2)
  | AcceptOutcome.ok =>
      (acq.1, some { incoming_called := false }, acq.2)

/-- Model of `s_listener_destroy_task`: stop accepting, clean up the listener socket,
release one reference.  Mirrors channel_bootstrap.c lines 1297-1305. -/
def s_listener_destroy_task (args : ServerConnectionArgs) :
    ServerConnectionArgs × List ServerOut :=
  let rel := s_server_connection_args_release args
  (rel.1, [ServerOut.stopAccept, ServerOut.listenerCleanUp] ++ rel.2)

/-- Model of `aws_server_bootstrap_destroy_socket_listener`: recover the owning
`server_connection_args` from the listener (the source does this with
`AWS_CONTAINER_OF` field-offset arithmetic; in this embedding the args that
own the listener are passed directly) and schedule the pre-initialized
destroy task on the listener's event loop.  Mirrors channel_bootstrap.c
lines 1455-1462. -/
def aws_server_bootstrap_destroy_socket_listener
    (args : ServerConnectionArgs) : List ServerOut :=
  [ServerOut.scheduleDestroyTask args.listener_loop]

/-! ### Server per-accepted-connection machine -/

/-- Machine state for one accepted connection's channel chain. -/
structure SState where
  cd : ServerChannelData
  args : ServerConnectionArgs
  phase : Phase
  deriving DecidableEq, Repr

/-- Events for one accepted connection's channel chain. -/
inductive SEvent
  | chanSetup (error : Nat) (build : ChannelBuildOutcome)
  | negotiation (err : Nat)
  | chanShutdown (error : Nat)
  deriving DecidableEq, Repr

/-- Dispatch one server channel-chain event.  A setup-completed error ends
the chain immediately (the source destroys the channel there, so no shutdown
callback will follow). -/
def stepServer (s : SState) : SEvent → SState × List ServerOut
  | SEvent.chanSetup error build =>
      let res := s_on_server_channel_on_setup_completed s.cd s.args error build
      ({ cd := res.1
         args := res.2.1
         phase :=
           if error = 0 then
             match build with
             | ChannelBuildOutcome.ok =>
                 if s.args.use_tls then Phase.awaitNegotiation else Phase.live
             | ChannelBuildOutcome.failed _ => Phase.awaitShutdownFail
           else Phase.closed }, res.2.2)
  | SEvent.negotiation err =>
      let res := s_tls_server_on_negotiation_result s.cd s.args err
      ({ cd := res.1
         args := s.args
         phase := if err = 0 then Phase.live else Phase.awaitShutdownFail },
       res.2)
  | SEvent.chanShutdown error =>
      let res := s_on_server_channel_on_shutdown s.cd s.args error
      ({ cd := res.1, args := res.2.1, phase := Phase.closed }, res.2.2)

/-- Validity of a server channel-chain event in the current phase. -/
def validSEventB (s : SState) : SEvent → Bool
  | SEvent.chanSetup _ _ => decide (s.phase = Phase.awaitSetup)
  | SEvent.negotiation _ => decide (s.phase = Phase.awaitNegotiation)
  | SEvent.chanShutdown _ =>
      decide (s.phase = Phase.awaitShutdownFail ∨ s.phase = Phase.live)

/-- Run a sequence of server channel-chain events. -/
def runServer (s : SState) : List SEvent → SState × List ServerOut
  | [] => (s, [])
  | e :: es =>
      ((runServer (stepServer s e).1 es).1,
        (stepServer s e).2 ++ (runServer (stepServer s e).1 es).2)

/-- Every event of the server sequence is valid where dispatched. -/
def validSRunB (s : SState) : List SEvent → Bool
  | [] => true
  | e :: es => validSEventB s e && validSRunB (stepServer s e).1 es

/-- One accepted connection end to end: the accept result, then (when a
channel was created) its channel-chain events. -/
def acceptAndRun (args : ServerConnectionArgs) (o : AcceptOutcome)
    (es : List SEvent) : List ServerOut :=
  match s_on_server_connection_result args o with
  | (_, none, outs) => outs
  | (args1, some cd, outs) =>
      outs ++ (runServer { cd := cd, args := args1, phase := Phase.awaitSetup } es).2

/-- The `aws_last_error()` codes reported for failed accept paths are
nonzero. -/
def acceptErrNonzeroB : AcceptOutcome → Bool
  | AcceptOutcome.acceptError e => decide (e ≠ 0)
  | AcceptOutcome.allocFailed e => decide (e ≠ 0)
  | AcceptOutcome.assignFailed e => decide (e ≠ 0)
  | AcceptOutcome.channelNewFailed e => decide (e ≠ 0)
  | AcceptOutcome.ok => true

/-- Validity of one accepted connection's full history: nonzero failure
codes; no chain events when no channel was created; otherwise a valid chain
run that ends with the channel fully torn down. -/
def acceptRunValidB (args : ServerConnectionArgs) (o : AcceptOutcome)
    (es : List SEvent) : Bool :=
  acceptErrNonzeroB o &&
    match s_on_server_connection_result args o with
    | (_, none, _) => decide (es = [])
    | (args1, some cd, _) =>
        validSRunB { cd := cd, args := args1, phase := Phase.awaitSetup } es &&
          decide ((runServer { cd := cd, args := args1, phase := Phase.awaitSetup } es).1.phase =
            Phase.closed)

/-- Is this server action an invocation of the user's incoming callback? -/
def isIncomingCb : ServerOut → Bool
  | ServerOut.incomingCb _ _ => true
  | _ => false

/-- Number of incoming-callback invocations. -/
def incomingCbCount (outs : List ServerOut) : Nat := outs.countP isIncomingCb

/-- Is this server action the destroy callback? -/
def isDestroyCb : ServerOut → Bool
  | ServerOut.destroyCb => true
  | _ => false

/-- Number of destroy-callback invocations. -/
def destroyCbCount (outs : List ServerOut) : Nat := outs.countP isDestroyCb

/-! ### Reference-count history for the server state (claim C7) -/

/-- One acquire or release of the server connection state's refcount. -/
inductive RefOp
  | acquire
  | release
  deriving DecidableEq, Repr

/-- Apply one refcount operation. -/
def applyRefOp (args : ServerConnectionArgs) :
    RefOp → ServerConnectionArgs × List ServerOut
  | RefOp.acquire => s_server_connection_args_acquire args
  | RefOp.release => s_server_connection_args_release args

/-- Run a history of refcount operations. -/
def runRefOps (args : ServerConnectionArgs) :
    List RefOp → ServerConnectionArgs × List ServerOut
  | [] => (args, [])
  | op :: rest =>
      ((runRefOps (applyRefOp args op).1 rest).1,
        (applyRefOp args op).2 ++ (runRefOps (applyRefOp args op).1 rest).2)

/-- A refcount history is valid when no operation runs on an already-freed
state (refcount zero). -/
def validRefOpsB (args : ServerConnectionArgs) : List RefOp → Bool
  | [] => true
  | op :: rest =>
      decide (0 < args.ref_count) && validRefOpsB (applyRefOp args op).1 rest

/-! ### Synchronous option validation (claim C8) -/

/-- Resource-creating steps of the two TLS entry points that a synchronous
options failure must not reach. -/
inductive ResourceEvent
  | allocConnectionState
  | listenerCreated
  deriving DecidableEq, Repr

/-- Model of `aws_client_bootstrap_new_tls_socket_channel`: reject non-stream socket
options synchronously with `AWS_IO_SOCKET_INVALID_OPTIONS` before any
resource is touched; otherwise proceed to `s_new_client_channel`, whose
first step allocates the connection state (its asynchronous continuation is
the race machine above).  Mirrors channel_bootstrap.c lines 843-862. -/
def aws_client_bootstrap_new_tls_socket_channel (options : SocketOptions) :
    Except Nat Unit × List ResourceEvent :=
  if options.type ≠ SocketType.stream then
    (Except.error AWS_IO_SOCKET_INVALID_OPTIONS, [])
  else (Except.ok (), [ResourceEvent.allocConnectionState])

/-- Model of `aws_server_bootstrap_new_tls_socket_listener`: reject non-stream socket
options synchronously with `AWS_IO_SOCKET_INVALID_OPTIONS` (returning NULL)
before any resource is touched; otherwise proceed to
`s_server_new_socket_listener`, which allocates the connection state and
creates the listener.  Mirrors channel_bootstrap.c lines 1426-1453. -/
def aws_server_bootstrap_new_tls_socket_listener (options : SocketOptions) :
    Except Nat Unit × List ResourceEvent :=
  if options.type ≠ SocketType.stream then
    (Except.error AWS_IO_SOCKET_INVALID_OPTIONS, [])
  else
    (Except.ok (),
      [ResourceEvent.allocConnectionState, ResourceEvent.listenerCreated])

/-! ### Iterated cancelled attempts (claim C10) -/

/-- State after `k` further `attempt_connection` dispatches that all fail
(cancelled dispatches, so each runs the shared failure tail). -/
def failK (args : ClientConnectionArgs) : Nat → ClientConnectionArgs
  | 0 => args
  | k + 1 => (s_attempt_connection (failK args k) AttemptOutcome.cancelled).1

/-- The inductive invariant of the client connect-race machine, relating the
machine state to the actions emitted so far.  The phase is `racing` both
before a winner is chosen and after a winner whose `aws_channel_new` failed
(no channel chain exists in either case); `racing_sc` captures the
completion-gate logic in both: setup has been delivered exactly when the
counter has reached `addresses_count`. -/
structure ClientInv (s : MState) (acc : List ClientOut) : Prop where
  ac_le : s.args.addresses_count ≤ 255
  ac_pos : 1 ≤ s.args.addresses_count
  sum_le : s.args.failed_count + s.tasks + s.conns ≤ s.args.addresses_count
  not_chosen_racing : s.args.connection_chosen = false →
    s.phase = Phase.racing
  not_chosen_eq : s.args.connection_chosen = false →
    s.args.failed_count + s.tasks + s.conns = s.args.addresses_count
  chain_lt : s.phase ≠ Phase.racing →
    s.args.failed_count + s.tasks + s.conns < s.args.addresses_count
  sc_true : s.args.setup_called = false → s.args.shutdown_callback = true
  pre_setup : s.phase = Phase.awaitSetup ∨ s.phase = Phase.awaitNegotiation ∨
    s.phase = Phase.awaitShutdownFail → s.args.setup_called = false
  chain_chosen : s.phase ≠ Phase.racing → s.args.connection_chosen = true
  racing_sc : s.phase = Phase.racing →
    (s.args.setup_called = true ↔
      s.args.failed_count = s.args.addresses_count)
  live_inv : s.phase = Phase.live → s.args.setup_called = true ∧
    s.args.shutdown_callback = true ∧ ClientOut.setupCb 0 true ∈ acc
  closed_setup : s.phase = Phase.closed → s.args.setup_called = true
  count_eq : setupCbCount acc = (if s.args.setup_called then 1 else 0)
  shutdown_after : ∀ e, ClientOut.shutdownCb e ∈ acc →
    ClientOut.setupCb 0 true ∈ acc
  success_live : ClientOut.setupCb 0 true ∈ acc →
    s.phase = Phase.live ∨ ∃ e, ClientOut.shutdownCb e ∈ acc
  chan_success : ∀ e, ClientOut.setupCb e true ∈ acc → e = 0

/-- The inductive invariant of the server per-accepted-connection machine. -/
structure ServerInv (s : SState) (acc : List ServerOut) : Prop where
  pre_incoming : s.phase = Phase.awaitSetup ∨ s.phase = Phase.awaitNegotiation ∨
    s.phase = Phase.awaitShutdownFail → s.cd.incoming_called = false
  done_incoming : s.phase = Phase.live ∨ s.phase = Phase.closed →
    s.cd.incoming_called = true
  count_eq : incomingCbCount acc = (if s.cd.incoming_called then 1 else 0)
  dichotomy : ∀ e ch, ServerOut.incomingCb e ch ∈ acc →
    (e = 0 ∧ ch = true) ∨ (e ≠ 0 ∧ ch = false)

/-- Concrete execution exhibiting a setup delivery with error code 0 and no
channel: a single resolved address whose attempt task is dispatched with
cancelled status. -/
def c1CounterexampleEvents : List CEvent := [CEvent.attempt AttemptOutcome.cancelled]

/-- Concrete successful execution: one address, its connect wins, the plain
(non-TLS) channel comes up, and the channel is later shut down. -/
def c1WitnessEvents : List CEvent :=
  [CEvent.attempt AttemptOutcome.connectStarted,
   CEvent.established 0 true true,
   CEvent.chanSetup 0 ChannelBuildOutcome.ok,
   CEvent.chanShutdown 0]

/-- Does the event's environment outcome include a failing `aws_channel_new`
on the winner path?  `true` when it does not. -/
def eventCok : CEvent → Bool
  | CEvent.established _ _ cok => cok
  | _ => true

/-- No `aws_channel_new` failure occurs anywhere in the execution. -/
def allCokB (es : List CEvent) : Bool := es.all eventCok

/-- Concrete execution in which the setup callback is never delivered: two
addresses, the first completion wins but its `aws_channel_new` fails (which
increments `failed_count` to 1 of 2), then the second completion arrives
with error 0 after the winner was chosen and is discarded without
incrementing `failed_count`, so the completion gate never fires. -/
def c1StarvationEvents : List CEvent :=
  [CEvent.attempt AttemptOutcome.connectStarted,
   CEvent.attempt AttemptOutcome.connectStarted,
   CEvent.established 0 true false,
   CEvent.established 0 true true]

/-- Concrete `client_connection_args` with a winner already chosen and one of
two attempts still outstanding. -/
def c2args : ClientConnectionArgs :=
  { setup_called := false
    shutdown_callback := true
    connection_chosen := true
    addresses_count := 2
    failed_count := 0
    ref_count := 2
    domain := SocketDomain.ipv4
    use_tls := false
    has_alpn := false
    has_user_negotiation_result := false }

/-- Concrete `server_connection_args` used in witnesses. -/
def serverArgs0 : ServerConnectionArgs :=
  { ref_count := 1
    use_tls := false
    has_alpn := false
    has_destroy_callback := true
    has_user_negotiation_result := false
    listener_loop := 3 }

end ChannelBootstrap

namespace ChannelBootstrap

/-! ## Theorems -/

theorem setupCbCount_append (l1 l2 : List ClientOut) :
    setupCbCount (l1 ++ l2) = setupCbCount l1 + setupCbCount l2 :=
  List.countP_append _ _ _

theorem incomingCbCount_append (l1 l2 : List ServerOut) :
    incomingCbCount (l1 ++ l2) = incomingCbCount l1 + incomingCbCount l2 :=
  List.countP_append _ _ _

/-- The invariant holds at the start of the race. -/
theorem clientInv_init (n : Nat) (useTls hasAlpn hasUserNeg : Bool)
    (domain : SocketDomain) (h1 : 1 ≤ n) (h2 : n ≤ 255) :
    ClientInv (initState n useTls hasAlpn hasUserNeg domain) [] := by
  have hn : n % 256 = n := Nat.mod_eq_of_lt (by omega)
  constructor <;> simp [initState, initArgs, setupCbCount, hn] <;> omega

/-- Failure tail when setup was already delivered: only the counter and the
reference count move. -/
theorem s_attempt_fail_path_called (args : ClientConnectionArgs)
    (errCode : Nat) (preOuts : List ClientOut)
    (hwrap : args.failed_count + 1 < 256) (hsc : args.setup_called = true) :
    s_attempt_fail_path args errCode preOuts =
      ({ args with failed_count := args.failed_count + 1
                   ref_count := args.ref_count - 1 },
       preOuts ++ [ClientOut.releaseRef, ClientOut.taskDataFree]) := by
  simp only [s_attempt_fail_path, Nat.mod_eq_of_lt hwrap]
  split <;>
    simp [s_connection_args_setup_callback, hsc, s_client_connection_args_release]

/-- Failure tail that does not hit the completion gate. -/
theorem s_attempt_fail_path_nogate (args : ClientConnectionArgs)
    (errCode : Nat) (preOuts : List ClientOut)
    (hwrap : args.failed_count + 1 < 256)
    (hgate : args.failed_count + 1 ≠ args.addresses_count) :
    s_attempt_fail_path args errCode preOuts =
      ({ args with failed_count := args.failed_count + 1
                   ref_count := args.ref_count - 1 },
       preOuts ++ [ClientOut.releaseRef, ClientOut.taskDataFree]) := by
  simp [s_attempt_fail_path, Nat.mod_eq_of_lt hwrap, hgate,
    s_client_connection_args_release]

/-- Failure tail of the last outstanding attempt with setup still pending:
setup is delivered with the attempt's error. -/
theorem s_attempt_fail_path_gate (args : ClientConnectionArgs)
    (errCode : Nat) (preOuts : List ClientOut)
    (hwrap : args.failed_count + 1 < 256)
    (hgate : args.failed_count + 1 = args.addresses_count)
    (hsc : args.setup_called = false) :
    s_attempt_fail_path args errCode preOuts =
      ({ args with failed_count := args.failed_count + 1
                   setup_called := true
                   shutdown_callback :=
                     if errCode ≠ 0 then false else args.shutdown_callback
                   ref_count := args.ref_count - 2 },
       preOuts ++ [ClientOut.setupCb errCode false, ClientOut.releaseRef,
                   ClientOut.releaseRef, ClientOut.taskDataFree]) := by
  simp only [s_attempt_fail_path, Nat.mod_eq_of_lt hwrap]
  simp [hgate, s_connection_args_setup_callback, hsc,
    s_client_connection_args_release]
  omega

/-- The invariant is preserved by any failing (or cancelled) attempt
dispatch. -/
theorem attempt_fail_inv (s : MState) (acc : List ClientOut) (errCode : Nat)
    (preOuts : List ClientOut) (hInv : ClientInv s acc) (ht : 0 < s.tasks)
    (hpre : setupCbCount preOuts = 0)
    (hpreSh : ∀ e, ClientOut.shutdownCb e ∉ preOuts)
    (hpreCh : ∀ e b, ClientOut.setupCb e b ∉ preOuts) :
    ClientInv
      { args := (s_attempt_fail_path s.args errCode preOuts).1
        tasks := s.tasks - 1
        conns := s.conns
        phase := s.phase }
      (acc ++ (s_attempt_fail_path s.args errCode preOuts).2) := by
  have hwrap : s.args.failed_count + 1 < 256 := by
    have h1 := hInv.sum_le; have h2 := hInv.ac_le; omega
  have hacc := hInv.count_eq
  by_cases hsc : s.args.setup_called = true
  · have hnr : ¬ s.phase = Phase.racing := by
      intro hr
      have h1 := (hInv.racing_sc hr).mp hsc
      have h2 := hInv.sum_le
      omega
    rw [s_attempt_fail_path_called _ _ _ hwrap hsc]
    constructor
    · exact hInv.ac_le
    · exact hInv.ac_pos
    · have := hInv.sum_le; simp; omega
    · intro h; exact absurd (hInv.not_chosen_racing h) hnr
    · intro h; have := hInv.not_chosen_eq h; simp; omega
    · intro h; have := hInv.chain_lt h; simp; omega
    · intro h; simp [hsc] at h
    · intro h; exact absurd (hInv.pre_setup h) (by simp [hsc])
    · intro h; exact hInv.chain_chosen h
    · intro h; exact absurd h hnr
    · intro h
      obtain ⟨h1, h2, h3⟩ := hInv.live_inv h
      exact ⟨by simpa using h1, by simpa using h2, List.mem_append_left _ h3⟩
    · intro h; simpa using hInv.closed_setup h
    · rw [setupCbCount_append, setupCbCount_append, hacc, hpre]
      simp [hsc, setupCbCount, isSetupCb]
    · intro e he
      rcases List.mem_append.mp he with h | h
      · exact List.mem_append_left _ (hInv.shutdown_after e h)
      · rcases List.mem_append.mp h with h1 | h1
        · exact absurd h1 (hpreSh e)
        · simp at h1
    · intro h
      rcases List.mem_append.mp h with h | h
      · rcases hInv.success_live h with h2 | ⟨e, h2⟩
        · exact Or.inl h2
        · exact Or.inr ⟨e, List.mem_append_left _ h2⟩
      · rcases List.mem_append.mp h with h1 | h1
        · exact absurd h1 (hpreCh 0 true)
        · simp at h1
    · intro e he
      rcases List.mem_append.mp he with h | h
      · exact hInv.chan_success e h
      · rcases List.mem_append.mp h with h1 | h1
        · exact absurd h1 (hpreCh e true)
        · simp at h1
  · replace hsc : s.args.setup_called = false := by
      cases h : s.args.setup_called
      · rfl
      · exact absurd h hsc
    by_cases hgate : s.args.failed_count + 1 = s.args.addresses_count
    · have hr : s.phase = Phase.racing := by
        by_contra hnr
        have := hInv.chain_lt hnr
        omega
      rw [s_attempt_fail_path_gate _ _ _ hwrap hgate hsc]
      constructor
      · exact hInv.ac_le
      · exact hInv.ac_pos
      · have := hInv.sum_le; simp; omega
      · intro _; exact hr
      · intro h; have := hInv.not_chosen_eq h; simp; omega
      · intro h; exact absurd hr h
      · intro h; simp at h
      · intro h
        rcases h with h2 | h2 | h2 <;> simp [hr] at h2
      · intro h; exact absurd hr h
      · intro _; simp [hgate]
      · intro h
        exact absurd (hInv.live_inv h).1 (by simp [hsc])
      · intro _; simp
      · rw [setupCbCount_append, setupCbCount_append, hacc, hpre]
        simp [hsc, setupCbCount, isSetupCb, List.countP_cons]
      · intro e he
        rcases List.mem_append.mp he with h | h
        · exact List.mem_append_left _ (hInv.shutdown_after e h)
        · rcases List.mem_append.mp h with h1 | h1
          · exact absurd h1 (hpreSh e)
          · simp at h1
      · intro h
        rcases List.mem_append.mp h with h | h
        · rcases hInv.success_live h with h2 | ⟨e, h2⟩
          · exact Or.inl h2
          · exact Or.inr ⟨e, List.mem_append_left _ h2⟩
        · rcases List.mem_append.mp h with h1 | h1
          · exact absurd h1 (hpreCh 0 true)
          · simp at h1
      · intro e he
        rcases List.mem_append.mp he with h | h
        · exact hInv.chan_success e h
        · rcases List.mem_append.mp h with h1 | h1
          · exact absurd h1 (hpreCh e true)
          · simp at h1
    · rw [s_attempt_fail_path_nogate _ _ _ hwrap hgate]
      constructor
      · exact hInv.ac_le
      · exact hInv.ac_pos
      · have := hInv.sum_le; simp; omega
      · intro h; exact hInv.not_chosen_racing h
      · intro h; have := hInv.not_chosen_eq h; simp; omega
      · intro h; have := hInv.chain_lt h; simp; omega
      · intro _; simpa using hInv.sc_true hsc
      · intro h; simpa using hInv.pre_setup h
      · intro h; exact hInv.chain_chosen h
      · intro _
        constructor
        · intro h2; simp [hsc] at h2
        · intro h2; exact absurd h2 hgate
      · intro h
        exact absurd (hInv.live_inv h).1 (by simp [hsc])
      · intro h; simpa using hInv.closed_setup h
      · rw [setupCbCount_append, setupCbCount_append, hacc, hpre]
        simp [hsc, setupCbCount, isSetupCb]
      · intro e he
        rcases List.mem_append.mp he with h | h
        · exact List.mem_append_left _ (hInv.shutdown_after e h)
        · rcases List.mem_append.mp h with h1 | h1
          · exact absurd h1 (hpreSh e)
          · simp at h1
      · intro h
        rcases List.mem_append.mp h with h | h
        · rcases hInv.success_live h with h2 | ⟨e, h2⟩
          · exact Or.inl h2
          · exact Or.inr ⟨e, List.mem_append_left _ h2⟩
        · rcases List.mem_append.mp h with h1 | h1
          · exact absurd h1 (hpreCh 0 true)
          · simp at h1
      · intro e he
        rcases List.mem_append.mp he with h | h
        · exact hInv.chan_success e h
        · rcases List.mem_append.mp h with h1 | h1
          · exact absurd h1 (hpreCh e true)
          · simp at h1

/-- Every element of a `recordOuts` block is the resolver feedback action. -/
theorem recordOuts_mem (args : ClientConnectionArgs) (e : Nat) (aok : Bool) :
    ∀ x ∈ recordOuts args e aok, x = ClientOut.recordFailure := by
  unfold recordOuts
  split_ifs <;> simp

/-- A `recordOuts` block contains no setup-callback action. -/
theorem recordOuts_setup_count (args : ClientConnectionArgs) (e : Nat)
    (aok : Bool) : setupCbCount (recordOuts args e aok) = 0 := by
  unfold recordOuts
  split_ifs <;> simp [setupCbCount, isSetupCb]

/-- Connection-established handler, failed or late arrival, when no setup
delivery happens (setup already delivered, or not the last attempt). -/
theorem established_err_noemit (args : ClientConnectionArgs)
    (error_code : Nat) (aok cok : Bool) (herr : error_code ≠ 0)
    (hwrap : args.failed_count + 1 < 256)
    (hno : args.setup_called = true ∨
      args.failed_count + 1 ≠ args.addresses_count) :
    s_on_client_connection_established args error_code aok cok =
      ({ args with failed_count := args.failed_count + 1
                   ref_count := args.ref_count - 1 },
       recordOuts args error_code aok ++
         [ClientOut.socketClose, ClientOut.socketCleanUp,
          ClientOut.socketRelease, ClientOut.releaseRef]) := by
  have hm := Nat.mod_eq_of_lt hwrap
  rcases hno with hsc | hgate
  · simp [s_on_client_connection_established, hm, herr,
      s_connection_args_setup_callback, hsc, s_client_connection_args_release,
      recordOuts]
  · simp [s_on_client_connection_established, hm, herr, hgate,
      s_client_connection_args_release, recordOuts]

/-- Connection-established handler: the last outstanding attempt fails and
setup is still pending, so setup is delivered with the attempt's error. -/
theorem established_err_emit (args : ClientConnectionArgs) (error_code : Nat)
    (aok cok : Bool) (herr : error_code ≠ 0)
    (hwrap : args.failed_count + 1 < 256)
    (hsc : args.setup_called = false)
    (hgate : args.failed_count + 1 = args.addresses_count) :
    s_on_client_connection_established args error_code aok cok =
      ({ args with failed_count := args.failed_count + 1
                   setup_called := true
                   shutdown_callback := false
                   ref_count := args.ref_count - 2 },
       recordOuts args error_code aok ++
         [ClientOut.socketClose, ClientOut.socketCleanUp,
          ClientOut.socketRelease, ClientOut.setupCb error_code false,
          ClientOut.releaseRef, ClientOut.releaseRef]) := by
  have hac : args.addresses_count < 256 := by omega
  have hm := Nat.mod_eq_of_lt hwrap
  have hm2 : args.addresses_count % 256 = args.addresses_count :=
    Nat.mod_eq_of_lt hac
  simp [s_on_client_connection_established, hm, hm2, herr, hgate, hac,
    s_connection_args_setup_callback, hsc, s_client_connection_args_release,
    recordOuts]
  all_goals omega

/-- Connection-established handler: a late success after a winner was already
chosen; the socket is discarded and `failed_count` is NOT incremented. -/
theorem established_late (args : ClientConnectionArgs) (aok cok : Bool)
    (hch : args.connection_chosen = true)
    (hgate : args.failed_count ≠ args.addresses_count) :
    s_on_client_connection_established args 0 aok cok =
      ({ args with ref_count := args.ref_count - 1 },
       [ClientOut.socketClose, ClientOut.socketCleanUp,
        ClientOut.socketRelease, ClientOut.releaseRef]) := by
  simp [s_on_client_connection_established, hch, hgate,
    s_client_connection_args_release, recordOuts]

/-- Late arrival with the setup callback already delivered: the socket is
discarded and nothing else observable happens. -/
theorem established_late_called (args : ClientConnectionArgs) (aok cok : Bool)
    (hch : args.connection_chosen = true) (hsc : args.setup_called = true) :
    s_on_client_connection_established args 0 aok cok =
      ({ args with ref_count := args.ref_count - 1 },
       [ClientOut.socketClose, ClientOut.socketCleanUp,
        ClientOut.socketRelease, ClientOut.releaseRef]) := by
  simp only [s_on_client_connection_established]
  simp [hch, s_connection_args_setup_callback, hsc,
    s_client_connection_args_release, recordOuts]

/-- Connection-established handler: the winning attempt; the connection is
chosen and a channel is created (its setup callback arrives later). -/
theorem established_winner (args : ClientConnectionArgs) (aok : Bool)
    (hch : args.connection_chosen = false) :
    s_on_client_connection_established args 0 aok true =
      ({ args with connection_chosen := true }, []) := by
  simp [s_on_client_connection_established, hch]

/-- Connection-established handler: the winning attempt whose
`aws_channel_new` fails (channel_bootstrap.c lines 553-562): the connection
is chosen anyway, the socket is discarded, `failed_count` is incremented,
and the completion gate does not fire. -/
theorem established_winner_chanfail_nogate (args : ClientConnectionArgs)
    (aok : Bool) (hch : args.connection_chosen = false)
    (hwrap : args.failed_count + 1 < 256)
    (hgate : args.failed_count + 1 ≠ args.addresses_count) :
    s_on_client_connection_established args 0 aok false =
      ({ args with connection_chosen := true
                   failed_count := args.failed_count + 1 },
       [ClientOut.socketCleanUp, ClientOut.socketRelease]) := by
  simp [s_on_client_connection_established, hch, Nat.mod_eq_of_lt hwrap, hgate]

/-- Connection-established handler: the winning attempt's `aws_channel_new`
fails while this was the last outstanding attempt: the completion gate fires
and setup is delivered with the stale error code 0 and no channel. -/
theorem established_winner_chanfail_gate (args : ClientConnectionArgs)
    (aok : Bool) (hch : args.connection_chosen = false)
    (hwrap : args.failed_count + 1 < 256)
    (hgate : args.failed_count + 1 = args.addresses_count)
    (hsc : args.setup_called = false) :
    s_on_client_connection_established args 0 aok false =
      ({ args with connection_chosen := true
                   failed_count := args.failed_count + 1
                   setup_called := true
                   ref_count := args.ref_count - 1 },
       [ClientOut.socketCleanUp, ClientOut.socketRelease,
        ClientOut.setupCb 0 false, ClientOut.releaseRef]) := by
  have hac : args.addresses_count < 256 := by omega
  have hm2 : args.addresses_count % 256 = args.addresses_count :=
    Nat.mod_eq_of_lt hac
  simp [s_on_client_connection_established, hch, Nat.mod_eq_of_lt hwrap, hgate,
    hac, hm2, s_connection_args_setup_callback, hsc,
    s_client_connection_args_release]

/-- The invariant is preserved by any connection-established completion. -/
theorem established_inv (s : MState) (acc : List ClientOut) (error : Nat)
    (aok cok : Bool) (hInv : ClientInv s acc) (hc : 0 < s.conns) :
    ClientInv
      { args := (s_on_client_connection_established s.args error aok cok).1
        tasks := s.tasks
        conns := s.conns - 1
        phase :=
          if error = 0 ∧ s.args.connection_chosen = false then
            (if cok then Phase.awaitSetup else Phase.racing)
          else s.phase }
      (acc ++ (s_on_client_connection_established s.args error aok cok).2) := by
  have hwrap : s.args.failed_count + 1 < 256 := by
    have h1 := hInv.sum_le; have h2 := hInv.ac_le; omega
  have hacc := hInv.count_eq
  by_cases herr : error = 0
  · subst herr
    by_cases hch : s.args.connection_chosen = true
    · -- late success after the winner: discarded, counter untouched
      rw [if_neg (show ¬((0:Nat) = 0 ∧ s.args.connection_chosen = false) by
        simp [hch])]
      by_cases hsc2 : s.args.setup_called = true
      · rw [established_late_called _ _ _ hch hsc2]
        constructor
        · exact hInv.ac_le
        · exact hInv.ac_pos
        · have := hInv.sum_le; simp; omega
        · intro h
          have h2 : s.args.connection_chosen = false := h
          simp [hch] at h2
        · intro h
          have h2 : s.args.connection_chosen = false := h
          simp [hch] at h2
        · intro h; have := hInv.chain_lt h; simp; omega
        · intro h; simp [hsc2] at h
        · intro h; exact absurd (hInv.pre_setup h) (by simp [hsc2])
        · intro _; exact hch
        · intro h; exact hInv.racing_sc h
        · intro h
          obtain ⟨h1, h2, h3⟩ := hInv.live_inv h
          exact ⟨h1, h2, List.mem_append_left _ h3⟩
        · intro h; exact hInv.closed_setup h
        · rw [setupCbCount_append, hacc]
          simp [setupCbCount, isSetupCb]
        · intro e he
          rcases List.mem_append.mp he with h | h
          · exact List.mem_append_left _ (hInv.shutdown_after e h)
          · simp at h
        · intro h
          rcases List.mem_append.mp h with h | h
          · rcases hInv.success_live h with h2 | ⟨e, h2⟩
            · exact Or.inl h2
            · exact Or.inr ⟨e, List.mem_append_left _ h2⟩
          · simp at h
        · intro e he
          rcases List.mem_append.mp he with h | h
          · exact hInv.chan_success e h
          · simp at h
      · replace hsc2 : s.args.setup_called = false := by
          cases h : s.args.setup_called
          · rfl
          · exact absurd h hsc2
        have hgate : s.args.failed_count ≠ s.args.addresses_count := by
          by_cases hr : s.phase = Phase.racing
          · intro he
            have := (hInv.racing_sc hr).mpr he
            simp [hsc2] at this
          · have := hInv.chain_lt hr
            omega
        rw [established_late _ _ _ hch hgate]
        constructor
        · exact hInv.ac_le
        · exact hInv.ac_pos
        · have := hInv.sum_le; simp; omega
        · intro h
          have h2 : s.args.connection_chosen = false := h
          simp [hch] at h2
        · intro h
          have h2 : s.args.connection_chosen = false := h
          simp [hch] at h2
        · intro h; have := hInv.chain_lt h; simp; omega
        · intro _; exact hInv.sc_true hsc2
        · intro h; exact hInv.pre_setup h
        · intro _; exact hch
        · intro h; exact hInv.racing_sc h
        · intro h
          obtain ⟨h1, h2, h3⟩ := hInv.live_inv h
          exact ⟨h1, h2, List.mem_append_left _ h3⟩
        · intro h; exact hInv.closed_setup h
        · rw [setupCbCount_append, hacc]
          simp [setupCbCount, isSetupCb]
        · intro e he
          rcases List.mem_append.mp he with h | h
          · exact List.mem_append_left _ (hInv.shutdown_after e h)
          · simp at h
        · intro h
          rcases List.mem_append.mp h with h | h
          · rcases hInv.success_live h with h2 | ⟨e, h2⟩
            · exact Or.inl h2
            · exact Or.inr ⟨e, List.mem_append_left _ h2⟩
          · simp at h
        · intro e he
          rcases List.mem_append.mp he with h | h
          · exact hInv.chan_success e h
          · simp at h
    · -- the winning attempt
      have hch2 : s.args.connection_chosen = false := by
        cases hx : s.args.connection_chosen
        · rfl
        · exact absurd hx hch
      have hrac : s.phase = Phase.racing := hInv.not_chosen_racing hch2
      have hsum := hInv.not_chosen_eq hch2
      have hsc : s.args.setup_called = false := by
        cases hx : s.args.setup_called
        · rfl
        · have h1 := (hInv.racing_sc hrac).mp hx
          omega
      rw [if_pos (show (0:Nat) = 0 ∧ s.args.connection_chosen = false from
        ⟨rfl, hch2⟩)]
      cases cok with
      | false =>
        rw [show (if (false : Bool) = true then Phase.awaitSetup
            else Phase.racing) = Phase.racing from by simp]
        by_cases hgate : s.args.failed_count + 1 = s.args.addresses_count
        · -- the winner was the last attempt and its channel allocation failed
          rw [established_winner_chanfail_gate _ aok hch2 hwrap hgate hsc]
          constructor
          · exact hInv.ac_le
          · exact hInv.ac_pos
          · simp; omega
          · intro _; rfl
          · intro h; simp at h
          · intro h; exact absurd rfl h
          · intro h; simp at h
          · intro h; rcases h with h2 | h2 | h2 <;> simp at h2
          · intro _; simp
          · intro _; simp [hgate]
          · intro h; simp at h
          · intro _; simp
          · rw [setupCbCount_append, hacc]
            simp [hsc, setupCbCount, isSetupCb, List.countP_cons]
          · intro e he
            rcases List.mem_append.mp he with h | h
            · exact List.mem_append_left _ (hInv.shutdown_after e h)
            · simp at h
          · intro h
            rcases List.mem_append.mp h with h | h
            · rcases hInv.success_live h with h2 | ⟨e, h2⟩
              · rw [hrac] at h2; simp at h2
              · exact Or.inr ⟨e, List.mem_append_left _ h2⟩
            · simp at h
          · intro e he
            rcases List.mem_append.mp he with h | h
            · exact hInv.chan_success e h
            · simp at h
        · -- channel allocation failed with other attempts still outstanding
          rw [established_winner_chanfail_nogate _ aok hch2 hwrap hgate]
          constructor
          · exact hInv.ac_le
          · exact hInv.ac_pos
          · simp; omega
          · intro _; rfl
          · intro h; simp at h
          · intro h; exact absurd rfl h
          · intro h; exact hInv.sc_true h
          · intro h; rcases h with h2 | h2 | h2 <;> simp at h2
          · intro _; simp
          · intro _
            constructor
            · intro h2
              have h3 : s.args.setup_called = true := h2
              simp [hsc] at h3
            · intro h2
              have h3 : s.args.failed_count + 1 = s.args.addresses_count := h2
              exact absurd h3 hgate
          · intro h; simp at h
          · intro h; simp at h
          · rw [setupCbCount_append, hacc]
            simp [setupCbCount, isSetupCb]
          · intro e he
            rcases List.mem_append.mp he with h | h
            · exact List.mem_append_left _ (hInv.shutdown_after e h)
            · simp at h
          · intro h
            rcases List.mem_append.mp h with h | h
            · rcases hInv.success_live h with h2 | ⟨e, h2⟩
              · rw [hrac] at h2; simp at h2
              · exact Or.inr ⟨e, List.mem_append_left _ h2⟩
            · simp at h
          · intro e he
            rcases List.mem_append.mp he with h | h
            · exact hInv.chan_success e h
            · simp at h
      | true =>
        rw [show (if (true : Bool) = true then Phase.awaitSetup
            else Phase.racing) = Phase.awaitSetup from by simp]
        rw [established_winner _ _ hch2]
        constructor
        · exact hInv.ac_le
        · exact hInv.ac_pos
        · have := hInv.sum_le; simp; omega
        · intro h; simp at h
        · intro h; simp at h
        · intro _; simp; omega
        · intro h; exact hInv.sc_true h
        · intro _; exact hsc
        · intro _; simp
        · intro h; simp at h
        · intro h; simp at h
        · intro h; simp at h
        · simpa using hacc
        · intro e he
          simp only [List.append_nil] at he ⊢
          exact hInv.shutdown_after e he
        · intro h
          simp only [List.append_nil] at h ⊢
          rcases hInv.success_live h with h2 | ⟨e, h2⟩
          · rw [hrac] at h2; simp at h2
          · exact Or.inr ⟨e, h2⟩
        · intro e he
          simp only [List.append_nil] at he
          exact hInv.chan_success e he
  · -- failed attempt
    rw [if_neg (show ¬(error = 0 ∧ s.args.connection_chosen = false) by
      simp [herr])]
    by_cases hsc : s.args.setup_called = true
    · have hnr : ¬ s.phase = Phase.racing := by
        intro hr
        have h1 := (hInv.racing_sc hr).mp hsc
        have h2 := hInv.sum_le
        omega
      rw [established_err_noemit _ _ _ cok herr hwrap (Or.inl hsc)]
      constructor
      · exact hInv.ac_le
      · exact hInv.ac_pos
      · have := hInv.sum_le; simp; omega
      · intro h; exact absurd (hInv.not_chosen_racing h) hnr
      · intro h; have := hInv.not_chosen_eq h; simp; omega
      · intro h; have := hInv.chain_lt h; simp; omega
      · intro h; simp [hsc] at h
      · intro h; exact absurd (hInv.pre_setup h) (by simp [hsc])
      · intro h; exact hInv.chain_chosen h
      · intro h; exact absurd h hnr
      · intro h
        obtain ⟨h1, h2, h3⟩ := hInv.live_inv h
        exact ⟨by simpa using h1, by simpa using h2, List.mem_append_left _ h3⟩
      · intro h; simpa using hInv.closed_setup h
      · rw [setupCbCount_append, setupCbCount_append, hacc,
          recordOuts_setup_count]
        simp [hsc, setupCbCount, isSetupCb]
      · intro e he
        rcases List.mem_append.mp he with h | h
        · exact List.mem_append_left _ (hInv.shutdown_after e h)
        · rcases List.mem_append.mp h with h1 | h1
          · have := recordOuts_mem _ _ _ _ h1; simp at this
          · simp at h1
      · intro h
        rcases List.mem_append.mp h with h | h
        · rcases hInv.success_live h with h2 | ⟨e, h2⟩
          · exact Or.inl h2
          · exact Or.inr ⟨e, List.mem_append_left _ h2⟩
        · rcases List.mem_append.mp h with h1 | h1
          · have := recordOuts_mem _ _ _ _ h1; simp at this
          · simp at h1
      · intro e he
        rcases List.mem_append.mp he with h | h
        · exact hInv.chan_success e h
        · rcases List.mem_append.mp h with h1 | h1
          · have := recordOuts_mem _ _ _ _ h1; simp at this
          · simp at h1
    · replace hsc : s.args.setup_called = false := by
        cases h : s.args.setup_called
        · rfl
        · exact absurd h hsc
      by_cases hgate : s.args.failed_count + 1 = s.args.addresses_count
      · have hr : s.phase = Phase.racing := by
          by_contra hnr
          have := hInv.chain_lt hnr
          omega
        rw [established_err_emit _ _ _ cok herr hwrap hsc hgate]
        constructor
        · exact hInv.ac_le
        · exact hInv.ac_pos
        · have := hInv.sum_le; simp; omega
        · intro _; exact hr
        · intro h; have := hInv.not_chosen_eq h; simp; omega
        · intro h; exact absurd hr h
        · intro h; simp at h
        · intro h
          rcases h with h2 | h2 | h2 <;> simp [hr] at h2
        · intro h; exact absurd hr h
        · intro _; simp [hgate]
        · intro h
          exact absurd (hInv.live_inv h).1 (by simp [hsc])
        · intro _; simp
        · rw [setupCbCount_append, setupCbCount_append, hacc,
            recordOuts_setup_count]
          simp [hsc, setupCbCount, isSetupCb, List.countP_cons]
        · intro e he
          rcases List.mem_append.mp he with h | h
          · exact List.mem_append_left _ (hInv.shutdown_after e h)
          · rcases List.mem_append.mp h with h1 | h1
            · have := recordOuts_mem _ _ _ _ h1; simp at this
            · simp at h1
        · intro h
          rcases List.mem_append.mp h with h | h
          · rcases hInv.success_live h with h2 | ⟨e, h2⟩
            · exact Or.inl h2
            · exact Or.inr ⟨e, List.mem_append_left _ h2⟩
          · rcases List.mem_append.mp h with h1 | h1
            · have := recordOuts_mem _ _ _ _ h1; simp at this
            · simp at h1
        · intro e he
          rcases List.mem_append.mp he with h | h
          · exact hInv.chan_success e h
          · rcases List.mem_append.mp h with h1 | h1
            · have := recordOuts_mem _ _ _ _ h1; simp at this
            · simp at h1
      · rw [established_err_noemit _ _ _ cok herr hwrap (Or.inr hgate)]
        constructor
        · exact hInv.ac_le
        · exact hInv.ac_pos
        · have := hInv.sum_le; simp; omega
        · intro h; exact hInv.not_chosen_racing h
        · intro h; have := hInv.not_chosen_eq h; simp; omega
        · intro h; have := hInv.chain_lt h; simp; omega
        · intro _; simpa using hInv.sc_true hsc
        · intro h; simpa using hInv.pre_setup h
        · intro h; exact hInv.chain_chosen h
        · intro _
          constructor
          · intro h2; simp [hsc] at h2
          · intro h2; exact absurd h2 hgate
        · intro h
          exact absurd (hInv.live_inv h).1 (by simp [hsc])
        · intro h; simpa using hInv.closed_setup h
        · rw [setupCbCount_append, setupCbCount_append, hacc,
            recordOuts_setup_count]
          simp [hsc, setupCbCount, isSetupCb]
        · intro e he
          rcases List.mem_append.mp he with h | h
          · exact List.mem_append_left _ (hInv.shutdown_after e h)
          · rcases List.mem_append.mp h with h1 | h1
            · have := recordOuts_mem _ _ _ _ h1; simp at this
            · simp at h1
        · intro h
          rcases List.mem_append.mp h with h | h
          · rcases hInv.success_live h with h2 | ⟨e, h2⟩
            · exact Or.inl h2
            · exact Or.inr ⟨e, List.mem_append_left _ h2⟩
          · rcases List.mem_append.mp h with h1 | h1
            · have := recordOuts_mem _ _ _ _ h1; simp at this
            · simp at h1
        · intro e he
          rcases List.mem_append.mp he with h | h
          · exact hInv.chan_success e h
          · rcases List.mem_append.mp h with h1 | h1
            · have := recordOuts_mem _ _ _ _ h1; simp at this
            · simp at h1

/-- The invariant is preserved by the winner channel's setup-completed
callback. -/
theorem chanSetup_inv (s : MState) (acc : List ClientOut) (error : Nat)
    (build : ChannelBuildOutcome) (hInv : ClientInv s acc)
    (hph : s.phase = Phase.awaitSetup) :
    ClientInv
      { args := (s_on_client_channel_on_setup_completed s.args error build).1
        tasks := s.tasks
        conns := s.conns
        phase :=
          if error = 0 then
            match build with
            | ChannelBuildOutcome.ok =>
                if s.args.use_tls then Phase.awaitNegotiation else Phase.live
            | ChannelBuildOutcome.failed _ => Phase.awaitShutdownFail
          else Phase.awaitShutdownFail }
      (acc ++ (s_on_client_channel_on_setup_completed s.args error build).2) := by
  have hsc : s.args.setup_called = false := hInv.pre_setup (Or.inl hph)
  have hnr : ¬ s.phase = Phase.racing := by simp [hph]
  have hch : s.args.connection_chosen = true := by
    cases hx : s.args.connection_chosen
    · exact absurd (hInv.not_chosen_racing hx) hnr
    · rfl
  have hacc := hInv.count_eq
  by_cases herr : error = 0
  · subst herr
    cases build with
    | ok =>
      by_cases htls : s.args.use_tls = true
      · rw [show s_on_client_channel_on_setup_completed s.args 0
            ChannelBuildOutcome.ok = (s.args, []) by
          simp [s_on_client_channel_on_setup_completed, htls]]
        rw [show (if (0:Nat) = 0 then
            match ChannelBuildOutcome.ok with
            | ChannelBuildOutcome.ok =>
                if s.args.use_tls then Phase.awaitNegotiation else Phase.live
            | ChannelBuildOutcome.failed _ => Phase.awaitShutdownFail
          else Phase.awaitShutdownFail) = Phase.awaitNegotiation by simp [htls]]
        constructor
        · exact hInv.ac_le
        · exact hInv.ac_pos
        · exact hInv.sum_le
        · intro h; simp [hch] at h
        · intro h; simp [hch] at h
        · intro _; exact hInv.chain_lt hnr
        · intro h; exact hInv.sc_true h
        · intro _; exact hsc
        · intro _; exact hch
        · intro h; simp at h
        · intro h; simp at h
        · intro h; simp at h
        · simpa using hacc
        · intro e he
          simp only [List.append_nil] at he ⊢
          exact hInv.shutdown_after e he
        · intro h
          simp only [List.append_nil] at h ⊢
          rcases hInv.success_live h with h2 | ⟨e, h2⟩
          · rw [hph] at h2; simp at h2
          · exact Or.inr ⟨e, h2⟩
        · intro e he
          simp only [List.append_nil] at he
          exact hInv.chan_success e he
      · have htls2 : s.args.use_tls = false := by
          cases hx : s.args.use_tls
          · rfl
          · exact absurd hx htls
        rw [show s_on_client_channel_on_setup_completed s.args 0
            ChannelBuildOutcome.ok =
            ({ s.args with setup_called := true
                           ref_count := s.args.ref_count - 1 },
             [ClientOut.setupCb 0 true, ClientOut.releaseRef]) by
          simp [s_on_client_channel_on_setup_completed, htls2,
            s_connection_args_setup_callback, hsc,
            s_client_connection_args_release]]
        rw [show (if (0:Nat) = 0 then
            match ChannelBuildOutcome.ok with
            | ChannelBuildOutcome.ok =>
                if s.args.use_tls then Phase.awaitNegotiation else Phase.live
            | ChannelBuildOutcome.failed _ => Phase.awaitShutdownFail
          else Phase.awaitShutdownFail) = Phase.live by simp [htls2]]
        constructor
        · exact hInv.ac_le
        · exact hInv.ac_pos
        · have := hInv.sum_le; simp; omega
        · intro h; simp [hch] at h
        · intro h; simp [hch] at h
        · intro _; have := hInv.chain_lt hnr; simp; omega
        · intro h; simp at h
        · intro h; simp at h
        · intro _; exact hch
        · intro h; simp at h
        · intro _
          refine ⟨by simp, by simpa using hInv.sc_true hsc, ?_⟩
          simp
        · intro h; simp at h
        · rw [setupCbCount_append, hacc]
          simp [hsc, setupCbCount, isSetupCb]
        · intro e he
          rcases List.mem_append.mp he with h | h
          · exact List.mem_append_left _ (hInv.shutdown_after e h)
          · simp at h
        · intro h
          exact Or.inl rfl
        · intro e he
          rcases List.mem_append.mp he with h | h
          · exact hInv.chan_success e h
          · simp at h
            exact h
    | failed e2 =>
      rw [show s_on_client_channel_on_setup_completed s.args 0
          (ChannelBuildOutcome.failed e2) =
          (s.args, [ClientOut.channelShutdown e2]) by
        simp [s_on_client_channel_on_setup_completed]]
      rw [show (if (0:Nat) = 0 then
          match ChannelBuildOutcome.failed e2 with
          | ChannelBuildOutcome.ok =>
              if s.args.use_tls then Phase.awaitNegotiation else Phase.live
          | ChannelBuildOutcome.failed _ => Phase.awaitShutdownFail
        else Phase.awaitShutdownFail) = Phase.awaitShutdownFail by simp]
      constructor
      · exact hInv.ac_le
      · exact hInv.ac_pos
      · exact hInv.sum_le
      · intro h; simp [hch] at h
      · intro h; simp [hch] at h
      · intro _; exact hInv.chain_lt hnr
      · intro h; exact hInv.sc_true h
      · intro _; exact hsc
      · intro _; exact hch
      · intro h; simp at h
      · intro h; simp at h
      · intro h; simp at h
      · rw [setupCbCount_append, hacc]
        simp [setupCbCount, isSetupCb]
      · intro e he
        rcases List.mem_append.mp he with h | h
        · exact List.mem_append_left _ (hInv.shutdown_after e h)
        · simp at h
      · intro h
        rcases List.mem_append.mp h with h | h
        · rcases hInv.success_live h with h2 | ⟨e, h2⟩
          · rw [hph] at h2; simp at h2
          · exact Or.inr ⟨e, List.mem_append_left _ h2⟩
        · simp at h
      · intro e he
        rcases List.mem_append.mp he with h | h
        · exact hInv.chan_success e h
        · simp at h
  · rw [show s_on_client_channel_on_setup_completed s.args error build =
        (s.args, [ClientOut.channelShutdown error]) by
      simp [s_on_client_channel_on_setup_completed, herr]]
    rw [if_neg herr]
    constructor
    · exact hInv.ac_le
    · exact hInv.ac_pos
    · exact hInv.sum_le
    · intro h; simp [hch] at h
    · intro h; simp [hch] at h
    · intro _; exact hInv.chain_lt hnr
    · intro h; exact hInv.sc_true h
    · intro _; exact hsc
    · intro _; exact hch
    · intro h; simp at h
    · intro h; simp at h
    · intro h; simp at h
    · rw [setupCbCount_append, hacc]
      simp [setupCbCount, isSetupCb]
    · intro e he
      rcases List.mem_append.mp he with h | h
      · exact List.mem_append_left _ (hInv.shutdown_after e h)
      · simp at h
    · intro h
      rcases List.mem_append.mp h with h | h
      · rcases hInv.success_live h with h2 | ⟨e, h2⟩
        · rw [hph] at h2; simp at h2
        · exact Or.inr ⟨e, List.mem_append_left _ h2⟩
      · simp at h
    · intro e he
      rcases List.mem_append.mp he with h | h
      · exact hInv.chan_success e h
      · simp at h

/-- The invariant is preserved by the TLS negotiation-result callback. -/
theorem negotiation_inv (s : MState) (acc : List ClientOut) (err : Nat)
    (hInv : ClientInv s acc) (hph : s.phase = Phase.awaitNegotiation) :
    ClientInv
      { args := (s_tls_client_on_negotiation_result s.args err).1
        tasks := s.tasks
        conns := s.conns
        phase := if err = 0 then Phase.live else Phase.awaitShutdownFail }
      (acc ++ (s_tls_client_on_negotiation_result s.args err).2) := by
  have hsc : s.args.setup_called = false :=
    hInv.pre_setup (Or.inr (Or.inl hph))
  have hnr : ¬ s.phase = Phase.racing := by simp [hph]
  have hch : s.args.connection_chosen = true := by
    cases hx : s.args.connection_chosen
    · exact absurd (hInv.not_chosen_racing hx) hnr
    · rfl
  have hacc := hInv.count_eq
  by_cases herr : err = 0
  · subst herr
    rw [show s_tls_client_on_negotiation_result s.args 0 =
        ({ s.args with setup_called := true
                       ref_count := s.args.ref_count - 1 },
         (if s.args.has_user_negotiation_result then
            [ClientOut.userNegotiationResult 0] else []) ++
           [ClientOut.setupCb 0 true, ClientOut.releaseRef]) by
      simp [s_tls_client_on_negotiation_result,
        s_connection_args_setup_callback, hsc,
        s_client_connection_args_release]]
    rw [if_pos rfl]
    constructor
    · exact hInv.ac_le
    · exact hInv.ac_pos
    · have := hInv.sum_le; simp; omega
    · intro h; simp [hch] at h
    · intro h; simp [hch] at h
    · intro _; have := hInv.chain_lt hnr; simp; omega
    · intro h; simp at h
    · intro h; simp at h
    · intro _; exact hch
    · intro h; simp at h
    · intro _
      refine ⟨by simp, by simpa using hInv.sc_true hsc, ?_⟩
      refine List.mem_append_right _ (List.mem_append_right _ ?_)
      simp
    · intro h; simp at h
    · rw [setupCbCount_append, setupCbCount_append, hacc]
      have : setupCbCount (if s.args.has_user_negotiation_result then
          [ClientOut.userNegotiationResult 0] else []) = 0 := by
        split <;> simp [setupCbCount, isSetupCb]
      rw [this]
      simp [hsc, setupCbCount, isSetupCb]
    · intro e he
      rcases List.mem_append.mp he with h | h
      · exact List.mem_append_left _ (hInv.shutdown_after e h)
      · rcases List.mem_append.mp h with h1 | h1
        · split at h1 <;> simp at h1
        · simp at h1
    · intro h
      exact Or.inl rfl
    · intro e he
      rcases List.mem_append.mp he with h | h
      · exact hInv.chan_success e h
      · rcases List.mem_append.mp h with h1 | h1
        · split at h1 <;> simp at h1
        · simp at h1
          exact h1
  · rw [show s_tls_client_on_negotiation_result s.args err =
        (s.args,
         (if s.args.has_user_negotiation_result then
            [ClientOut.userNegotiationResult err] else []) ++
           [ClientOut.channelShutdown err]) by
      simp [s_tls_client_on_negotiation_result, herr]]
    rw [if_neg herr]
    constructor
    · exact hInv.ac_le
    · exact hInv.ac_pos
    · exact hInv.sum_le
    · intro h; simp [hch] at h
    · intro h; simp [hch] at h
    · intro _; exact hInv.chain_lt hnr
    · intro h; exact hInv.sc_true h
    · intro _; exact hsc
    · intro _; exact hch
    · intro h; simp at h
    · intro h; simp at h
    · intro h; simp at h
    · rw [setupCbCount_append, setupCbCount_append, hacc]
      have : setupCbCount (if s.args.has_user_negotiation_result then
          [ClientOut.userNegotiationResult err] else []) = 0 := by
        split <;> simp [setupCbCount, isSetupCb]
      rw [this]
      simp [setupCbCount, isSetupCb]
    · intro e he
      rcases List.mem_append.mp he with h | h
      · exact List.mem_append_left _ (hInv.shutdown_after e h)
      · rcases List.mem_append.mp h with h1 | h1
        · split at h1 <;> simp at h1
        · simp at h1
    · intro h
      rcases List.mem_append.mp h with h | h
      · rcases hInv.success_live h with h2 | ⟨e, h2⟩
        · rw [hph] at h2; simp at h2
        · exact Or.inr ⟨e, List.mem_append_left _ h2⟩
      · rcases List.mem_append.mp h with h1 | h1
        · split at h1 <;> simp at h1
        · simp at h1
    · intro e he
      rcases List.mem_append.mp he with h | h
      · exact hInv.chan_success e h
      · rcases List.mem_append.mp h with h1 | h1
        · split at h1 <;> simp at h1
        · simp at h1

/-- The invariant is preserved by the channel-shutdown-completed callback. -/
theorem chanShutdown_inv (s : MState) (acc : List ClientOut) (error : Nat)
    (hInv : ClientInv s acc)
    (hph : s.phase = Phase.awaitShutdownFail ∨ s.phase = Phase.live) :
    ClientInv
      { args := (s_on_client_channel_on_shutdown s.args error).1
        tasks := s.tasks
        conns := s.conns
        phase := Phase.closed }
      (acc ++ (s_on_client_channel_on_shutdown s.args error).2) := by
  have hacc := hInv.count_eq
  rcases hph with hph | hph
  · -- shutdown of a channel whose setup was never delivered to the user
    have hsc : s.args.setup_called = false :=
      hInv.pre_setup (Or.inr (Or.inr hph))
    have hnr : ¬ s.phase = Phase.racing := by simp [hph]
    have hch : s.args.connection_chosen = true := by
      cases hx : s.args.connection_chosen
      · exact absurd (hInv.not_chosen_racing hx) hnr
      · rfl
    have hec : (if error ≠ 0 then error else AWS_ERROR_UNKNOWN) ≠ 0 := by
      split
      · assumption
      · simp [AWS_ERROR_UNKNOWN]
    rw [show s_on_client_channel_on_shutdown s.args error =
        ({ s.args with setup_called := true
                       shutdown_callback := false
                       ref_count := s.args.ref_count - 2 },
         [ClientOut.setupCb (if error ≠ 0 then error else AWS_ERROR_UNKNOWN)
            false,
          ClientOut.releaseRef, ClientOut.channelDestroy,
          ClientOut.socketCleanUp, ClientOut.socketRelease,
          ClientOut.releaseRef]) by
      simp [s_on_client_channel_on_shutdown,
        s_connection_args_shutdown_callback, hsc,
        s_connection_args_setup_callback, s_client_connection_args_release,
        hec]
      constructor
      · intro h
        split at h
        · exact absurd h (by decide)
        · omega
      · omega]
    constructor
    · exact hInv.ac_le
    · exact hInv.ac_pos
    · have := hInv.sum_le; simp; omega
    · intro h; simp [hch] at h
    · intro h; simp [hch] at h
    · intro _; have := hInv.chain_lt hnr; simp; omega
    · intro h; simp at h
    · intro h; simp at h
    · intro _; exact hch
    · intro h; simp at h
    · intro h; simp at h
    · intro _; simp
    · rw [setupCbCount_append, hacc]
      simp [hsc, setupCbCount, isSetupCb]
    · intro e he
      rcases List.mem_append.mp he with h | h
      · exact List.mem_append_left _ (hInv.shutdown_after e h)
      · simp at h
    · intro h
      rcases List.mem_append.mp h with h | h
      · rcases hInv.success_live h with h2 | ⟨e, h2⟩
        · rw [hph] at h2; simp at h2
        · exact Or.inr ⟨e, List.mem_append_left _ h2⟩
      · simp at h
    · intro e he
      rcases List.mem_append.mp he with h | h
      · exact hInv.chan_success e h
      · simp at h
  · -- normal shutdown of a live channel
    obtain ⟨hsc1, hsb, hmem⟩ := hInv.live_inv hph
    have hnr : ¬ s.phase = Phase.racing := by simp [hph]
    have hch : s.args.connection_chosen = true := by
      cases hx : s.args.connection_chosen
      · exact absurd (hInv.not_chosen_racing hx) hnr
      · rfl
    rw [show s_on_client_channel_on_shutdown s.args error =
        ({ s.args with ref_count := s.args.ref_count - 1 },
         [ClientOut.shutdownCb error, ClientOut.channelDestroy,
          ClientOut.socketCleanUp, ClientOut.socketRelease,
          ClientOut.releaseRef]) by
      simp [s_on_client_channel_on_shutdown,
        s_connection_args_shutdown_callback, hsc1, hsb,
        s_client_connection_args_release]]
    constructor
    · exact hInv.ac_le
    · exact hInv.ac_pos
    · have := hInv.sum_le; simp; omega
    · intro h; simp [hch] at h
    · intro h; simp [hch] at h
    · intro _; have := hInv.chain_lt hnr; simp; omega
    · intro h
      have h2 : s.args.setup_called = false := h
      simp [hsc1] at h2
    · intro h; simp at h
    · intro _; exact hch
    · intro h; simp at h
    · intro h; simp at h
    · intro _; simpa using hsc1
    · rw [setupCbCount_append, hacc]
      simp [hsc1, setupCbCount, isSetupCb]
    · intro e he
      rcases List.mem_append.mp he with h | h
      · exact List.mem_append_left _ (hInv.shutdown_after e h)
      · exact List.mem_append_left _ hmem
    · intro h
      refine Or.inr ⟨error, ?_⟩
      refine List.mem_append_right _ ?_
      simp
    · intro e he
      rcases List.mem_append.mp he with h | h
      · exact hInv.chan_success e h
      · simp at h

/-- The invariant is preserved by an attempt dispatch whose
`aws_socket_connect` was issued successfully. -/
theorem attempt_started_inv (s : MState) (acc : List ClientOut)
    (hInv : ClientInv s acc) (ht : 0 < s.tasks) :
    ClientInv
      { args := s.args
        tasks := s.tasks - 1
        conns := s.conns + 1
        phase := s.phase }
      (acc ++ [ClientOut.taskDataFree]) := by
  have hacc := hInv.count_eq
  constructor
  · exact hInv.ac_le
  · exact hInv.ac_pos
  · have := hInv.sum_le; simp; omega
  · intro h; exact hInv.not_chosen_racing h
  · intro h; have := hInv.not_chosen_eq h; simp; omega
  · intro h; have := hInv.chain_lt h; simp; omega
  · intro h; exact hInv.sc_true h
  · intro h; exact hInv.pre_setup h
  · intro h; exact hInv.chain_chosen h
  · intro h; exact hInv.racing_sc h
  · intro h
    obtain ⟨h1, h2, h3⟩ := hInv.live_inv h
    exact ⟨h1, h2, List.mem_append_left _ h3⟩
  · intro h; exact hInv.closed_setup h
  · rw [setupCbCount_append, hacc]
    simp [setupCbCount, isSetupCb]
  · intro e he
    rcases List.mem_append.mp he with h | h
    · exact List.mem_append_left _ (hInv.shutdown_after e h)
    · simp at h
  · intro h
    rcases List.mem_append.mp h with h | h
    · rcases hInv.success_live h with h2 | ⟨e, h2⟩
      · exact Or.inl h2
      · exact Or.inr ⟨e, List.mem_append_left _ h2⟩
    · simp at h
  · intro e he
    rcases List.mem_append.mp he with h | h
    · exact hInv.chan_success e h
    · simp at h

/-- The invariant is preserved by every valid machine step. -/
theorem stepClient_inv (s : MState) (acc : List ClientOut) (e : CEvent)
    (hInv : ClientInv s acc) (hv : validEventB s e = true) :
    ClientInv (stepClient s e).1 (acc ++ (stepClient s e).2) := by
  cases e with
  | attempt o =>
    have ht : 0 < s.tasks := by simpa [validEventB] using hv
    cases o with
    | cancelled =>
      exact attempt_fail_inv s acc 0 [] hInv ht (by simp [setupCbCount])
        (by simp) (by simp)
    | socketAllocFailed e2 =>
      exact attempt_fail_inv s acc e2 [] hInv ht (by simp [setupCbCount])
        (by simp) (by simp)
    | socketInitFailed e2 =>
      exact attempt_fail_inv s acc e2 [ClientOut.socketRelease] hInv ht
        (by simp [setupCbCount, isSetupCb]) (by simp) (by simp)
    | socketConnectFailed e2 =>
      exact attempt_fail_inv s acc e2
        [ClientOut.recordFailure, ClientOut.socketCleanUp,
         ClientOut.socketRelease] hInv ht
        (by simp [setupCbCount, isSetupCb]) (by simp) (by simp)
    | connectStarted =>
      exact attempt_started_inv s acc hInv ht
  | established error aok cok =>
    have hc : 0 < s.conns := by simpa [validEventB] using hv
    exact established_inv s acc error aok cok hInv hc
  | chanSetup error build =>
    have hph : s.phase = Phase.awaitSetup := by simpa [validEventB] using hv
    exact chanSetup_inv s acc error build hInv hph
  | negotiation err =>
    have hph : s.phase = Phase.awaitNegotiation := by
      simpa [validEventB] using hv
    exact negotiation_inv s acc err hInv hph
  | chanShutdown error =>
    have hph : s.phase = Phase.awaitShutdownFail ∨ s.phase = Phase.live := by
      simpa [validEventB] using hv
    exact chanShutdown_inv s acc error hInv hph

/-- The invariant holds after any valid run. -/
theorem runClient_inv (es : List CEvent) (s : MState) (acc : List ClientOut)
    (hInv : ClientInv s acc) (hv : validRunB s es = true) :
    ClientInv (runClient s es).1 (acc ++ (runClient s es).2) := by
  induction es generalizing s acc with
  | nil => simpa [runClient] using hInv
  | cons e es ih =>
    simp only [validRunB, Bool.and_eq_true] at hv
    have h1 := stepClient_inv s acc e hInv hv.1
    have h2 := ih (stepClient s e).1 (acc ++ (stepClient s e).2) h1 hv.2
    simpa [runClient, List.append_assoc] using h2

/-- No branch of the `attempt_connection` task changes `connection_chosen`. -/
theorem s_attempt_connection_chosen (args : ClientConnectionArgs)
    (o : AttemptOutcome) :
    (s_attempt_connection args o).1.connection_chosen =
      args.connection_chosen := by
  cases o <;>
    simp only [s_attempt_connection, s_attempt_fail_path,
      s_connection_args_setup_callback, s_client_connection_args_release] <;>
    split_ifs <;> rfl

/-- The error-or-already-chosen branch of the connection-established handler
leaves `connection_chosen` unchanged. -/
theorem established_chosen_unchanged (args : ClientConnectionArgs)
    (error_code : Nat) (aok cok : Bool)
    (h : error_code ≠ 0 ∨ args.connection_chosen = true) :
    (s_on_client_connection_established args error_code aok
        cok).1.connection_chosen = args.connection_chosen := by
  simp only [s_on_client_connection_established,
    s_connection_args_setup_callback, s_client_connection_args_release]
  split_ifs <;> simp_all

/-- One step of the machine on any event that is not a winner with a failing
`aws_channel_new` preserves the property that the racing phase implies no
winner has been chosen. -/
theorem stepClient_no_cnf (s : MState) (e : CEvent)
    (hcok : eventCok e = true)
    (h : s.phase = Phase.racing → s.args.connection_chosen = false) :
    (stepClient s e).1.phase = Phase.racing →
      (stepClient s e).1.args.connection_chosen = false := by
  cases e with
  | attempt o =>
    intro hr
    show (s_attempt_connection s.args o).1.connection_chosen = false
    rw [s_attempt_connection_chosen]
    exact h hr
  | established e2 aok cok =>
    have hcok2 : cok = true := hcok
    subst hcok2
    by_cases hcond : e2 = 0 ∧ s.args.connection_chosen = false
    · intro hr
      have hr2 : (if e2 = 0 ∧ s.args.connection_chosen = false then
          (if (true : Bool) then Phase.awaitSetup else Phase.racing)
        else s.phase) = Phase.racing := hr
      rw [if_pos hcond] at hr2
      simp at hr2
    · intro hr
      have hr2 : (if e2 = 0 ∧ s.args.connection_chosen = false then
          (if (true : Bool) then Phase.awaitSetup else Phase.racing)
        else s.phase) = Phase.racing := hr
      rw [if_neg hcond] at hr2
      have hbr : e2 ≠ 0 ∨ s.args.connection_chosen = true := by
        by_cases he : e2 = 0
        · right
          cases hx : s.args.connection_chosen
          · exact absurd ⟨he, hx⟩ hcond
          · rfl
        · exact Or.inl he
      show (s_on_client_connection_established s.args e2 aok
          true).1.connection_chosen = false
      rw [established_chosen_unchanged s.args e2 aok true hbr]
      exact h hr2
  | chanSetup e2 build =>
    intro hr
    exfalso
    by_cases he : e2 = 0
    · cases build with
      | ok =>
        by_cases htls : s.args.use_tls = true
        · simp [stepClient, he, htls] at hr
        · simp [stepClient, he, htls] at hr
      | failed e3 => simp [stepClient, he] at hr
    · simp [stepClient, he] at hr
  | negotiation err =>
    intro hr
    exfalso
    by_cases he : err = 0
    · simp [stepClient, he] at hr
    · simp [stepClient, he] at hr
  | chanShutdown e2 =>
    intro hr
    exfalso
    simp [stepClient] at hr

/-- Over any run with no `aws_channel_new` failure, the racing phase still
implies no winner has been chosen (the degenerate chosen-but-racing state is
only entered by a failing `aws_channel_new` on the winner path). -/
theorem runClient_no_cnf (es : List CEvent) (s : MState)
    (hcok : allCokB es = true)
    (h : s.phase = Phase.racing → s.args.connection_chosen = false) :
    (runClient s es).1.phase = Phase.racing →
      (runClient s es).1.args.connection_chosen = false := by
  induction es generalizing s with
  | nil => simpa [runClient] using h
  | cons e es ih =>
    simp only [allCokB, List.all_cons, Bool.and_eq_true] at hcok
    have hstep := stepClient_no_cnf s e hcok.1 h
    have := ih (stepClient s e).1 hcok.2 hstep
    simpa [runClient] using this

/-- C1 (counterexample): (i) the claim's delivery dichotomy — every setup
delivery is success-with-channel or error-without-channel — is false on the
code: when the last outstanding attempt's task is dispatched with cancelled
status, `s_attempt_connection` leaves its local error code at 0 and the
completion gate delivers the setup callback with error code 0 and a NULL
channel; (ii) exactly-once also fails: when the winning connection's
`aws_channel_new` fails (channel_bootstrap.c lines 553-562, incrementing
`failed_count` once) and the other attempt then completes with error 0 after
the winner was chosen (no increment, lines 481-484), the completion gate
never fires, and the concrete complete valid execution `c1StarvationEvents`
delivers the setup callback zero times. -/
theorem c1_counterexample :
    ¬ ClaimC1 ∧
    (validRunB (initState 2 false false false SocketDomain.ipv4)
        c1StarvationEvents = true ∧
      CompleteState
        (runClient (initState 2 false false false SocketDomain.ipv4)
          c1StarvationEvents).1 ∧
      setupCbCount
        (runClient (initState 2 false false false SocketDomain.ipv4)
          c1StarvationEvents).2 = 0) := by
  constructor
  · intro h
    have h2 := h 1 false false false SocketDomain.ipv4 c1CounterexampleEvents
      (by decide) (by decide) (by decide) (by decide)
    have h3 := h2.2.1 0 false (by decide)
    rcases h3 with ⟨_, h4⟩ | ⟨h4, _⟩
    · exact absurd h4 (by decide)
    · exact h4 rfl
  · exact ⟨by decide, by decide, by decide⟩

/-- C1 (amended): over every complete valid race execution the user setup
callback is invoked at most once, every delivery that carries a channel
carries error code 0 (a delivery without a channel may carry error code 0,
e.g. after a cancelled last attempt), and the user shutdown callback is
invoked iff setup delivered success with a channel; when moreover no
`aws_channel_new` failure occurs in the execution, the setup callback is
invoked exactly once. -/
theorem c1_amended (n : Nat) (useTls hasAlpn hasUserNeg : Bool)
    (domain : SocketDomain) (es : List CEvent) (h1 : 1 ≤ n) (h2 : n ≤ 255)
    (hv : validRunB (initState n useTls hasAlpn hasUserNeg domain) es = true)
    (hc : CompleteState
      (runClient (initState n useTls hasAlpn hasUserNeg domain) es).1) :
    setupCbCount
        (runClient (initState n useTls hasAlpn hasUserNeg domain) es).2 ≤ 1 ∧
    (∀ err, ClientOut.setupCb err true ∈
        (runClient (initState n useTls hasAlpn hasUserNeg domain) es).2 →
      err = 0) ∧
    ((∃ e, ClientOut.shutdownCb e ∈
        (runClient (initState n useTls hasAlpn hasUserNeg domain) es).2) ↔
      ClientOut.setupCb 0 true ∈
        (runClient (initState n useTls hasAlpn hasUserNeg domain) es).2) ∧
    (allCokB es = true →
      setupCbCount
        (runClient (initState n useTls hasAlpn hasUserNeg domain) es).2
          = 1) := by
  have hInv0 := clientInv_init n useTls hasAlpn hasUserNeg domain h1 h2
  have hInv := runClient_inv es (initState n useTls hasAlpn hasUserNeg domain)
    [] hInv0 hv
  simp only [List.nil_append] at hInv
  obtain ⟨htasks, hconns, hphase⟩ := hc
  refine ⟨?_, ?_, ⟨?_, ?_⟩, ?_⟩
  · rw [hInv.count_eq]
    split <;> omega
  · intro err he
    exact hInv.chan_success err he
  · rintro ⟨e, he⟩
    exact hInv.shutdown_after e he
  · intro hmem
    rcases hInv.success_live hmem with hlive | ⟨e, he⟩
    · rcases hphase with hp | hp <;> rw [hp] at hlive <;> simp at hlive
    · exact ⟨e, he⟩
  · intro hcok
    have hnc := runClient_no_cnf es
      (initState n useTls hasAlpn hasUserNeg domain) hcok (fun _ => rfl)
    have hsetup :
        (runClient (initState n useTls hasAlpn hasUserNeg
          domain) es).1.args.setup_called = true := by
      rcases hphase with hp | hp
      · have hch := hnc hp
        have hsum := hInv.not_chosen_eq hch
        refine (hInv.racing_sc hp).mpr ?_
        omega
      · exact hInv.closed_setup hp
    rw [hInv.count_eq, hsetup]
    simp

/-- C1 (witness): the amended theorem applied to a concrete winning
execution: one address, its connect wins, the plain channel comes up (setup
delivered once with the channel), the channel later shuts down (shutdown
callback delivered). -/
theorem c1_amended_witness :
    (1 ≤ 1 ∧ 1 ≤ 255 ∧
      validRunB (initState 1 false false false SocketDomain.ipv4)
        c1WitnessEvents = true ∧
      CompleteState
        (runClient (initState 1 false false false SocketDomain.ipv4)
          c1WitnessEvents).1) ∧
    (setupCbCount
        (runClient (initState 1 false false false SocketDomain.ipv4)
          c1WitnessEvents).2 ≤ 1 ∧
    (∀ err, ClientOut.setupCb err true ∈
        (runClient (initState 1 false false false SocketDomain.ipv4)
          c1WitnessEvents).2 → err = 0) ∧
    ((∃ e, ClientOut.shutdownCb e ∈
        (runClient (initState 1 false false false SocketDomain.ipv4)
          c1WitnessEvents).2) ↔
      ClientOut.setupCb 0 true ∈
        (runClient (initState 1 false false false SocketDomain.ipv4)
          c1WitnessEvents).2) ∧
    (allCokB c1WitnessEvents = true →
      setupCbCount
        (runClient (initState 1 false false false SocketDomain.ipv4)
          c1WitnessEvents).2 = 1)) :=
  ⟨⟨by decide, by decide, by decide, by decide⟩,
    c1_amended 1 false false false SocketDomain.ipv4 c1WitnessEvents
      (by decide) (by decide) (by decide) (by decide)⟩

/-- Membership of the resolver-feedback action in a `recordOuts` block. -/
theorem recordOuts_mem_iff (args : ClientConnectionArgs) (e : Nat)
    (aok : Bool) :
    ClientOut.recordFailure ∈ recordOuts args e aok ↔
      (args.domain ≠ SocketDomain.local_ ∧ e ≠ 0 ∧ aok = true) := by
  unfold recordOuts
  cases aok <;> split_ifs with h1 <;> simp_all

/-- A `recordOuts` block contains no reference release. -/
theorem recordOuts_release_count (args : ClientConnectionArgs) (e : Nat)
    (aok : Bool) : releaseRefCount (recordOuts args e aok) = 0 := by
  unfold recordOuts
  split_ifs <;> simp [releaseRefCount, isReleaseRef]

/-- Late arrival after a winner, with the unincremented counter happening to
equal `addresses_count` and setup still pending: the gate fires and delivers
setup with error code 0 and no channel. -/
theorem established_late_emit (args : ClientConnectionArgs) (aok cok : Bool)
    (hch : args.connection_chosen = true) (hsc : args.setup_called = false)
    (hg : args.failed_count = args.addresses_count) :
    s_on_client_connection_established args 0 aok cok =
      ({ args with setup_called := true
                   ref_count := args.ref_count - 2 },
       [ClientOut.socketClose, ClientOut.socketCleanUp,
        ClientOut.socketRelease, ClientOut.setupCb 0 false,
        ClientOut.releaseRef, ClientOut.releaseRef]) := by
  simp [s_on_client_connection_established, hch, hg,
    s_connection_args_setup_callback, hsc, s_client_connection_args_release,
    recordOuts]
  omega

/-- C2 (counterexample): the claim says the error-or-already-chosen branch of
`s_on_client_connection_established` increments `failed_count`; it does not
when the error code is 0 (a late success after a winner): with a winner
chosen, two addresses, and a zero-error completion, `failed_count` stays 0. -/
theorem c2_counterexample : ¬ ClaimC2 := by
  intro h
  have h2 := (h c2args 0 true true (Or.inr rfl) (by decide)).1
  exact absurd h2 (by decide)

/-- C2 (amended): in the error-or-already-chosen branch, the handler records
the failed address only for non-local domains with a nonzero error (and a
successful address-string allocation), closes, cleans up and frees the
socket, increments `failed_count` only when the error code is nonzero,
delivers the setup callback with the error exactly when the (conditionally
incremented) counter equals `addresses_count` and setup is still pending, and
releases one reference itself plus the one inside the setup delivery when
that fires. -/
theorem c2_amended (args : ClientConnectionArgs) (error_code : Nat)
    (aok cok : Bool) (hbr : error_code ≠ 0 ∨ args.connection_chosen = true)
    (hwrap : args.failed_count + 1 < 256) :
    (s_on_client_connection_established args error_code aok cok).1.failed_count =
      (if error_code ≠ 0 then args.failed_count + 1 else args.failed_count) ∧
    (ClientOut.recordFailure ∈
        (s_on_client_connection_established args error_code aok cok).2 ↔
      (args.domain ≠ SocketDomain.local_ ∧ error_code ≠ 0 ∧ aok = true)) ∧
    ClientOut.socketClose ∈
      (s_on_client_connection_established args error_code aok cok).2 ∧
    ClientOut.socketCleanUp ∈
      (s_on_client_connection_established args error_code aok cok).2 ∧
    ClientOut.socketRelease ∈
      (s_on_client_connection_established args error_code aok cok).2 ∧
    (ClientOut.setupCb error_code false ∈
        (s_on_client_connection_established args error_code aok cok).2 ↔
      ((if error_code ≠ 0 then args.failed_count + 1 else args.failed_count) =
          args.addresses_count ∧ args.setup_called = false)) ∧
    releaseRefCount (s_on_client_connection_established args error_code aok cok).2 =
      (if (if error_code ≠ 0 then args.failed_count + 1 else args.failed_count) =
          args.addresses_count ∧ args.setup_called = false then 2 else 1) ∧
    setupCbCount (s_on_client_connection_established args error_code aok cok).2 =
      (if (if error_code ≠ 0 then args.failed_count + 1 else args.failed_count) =
          args.addresses_count ∧ args.setup_called = false then 1 else 0) := by
  by_cases herr : error_code = 0
  · subst herr
    have hch : args.connection_chosen = true := by
      rcases hbr with h | h
      · exact absurd rfl h
      · exact h
    by_cases hsc : args.setup_called = true
    · rw [established_late_called _ aok cok hch hsc]
      simp [hsc, releaseRefCount, isReleaseRef, setupCbCount, isSetupCb]
    · replace hsc : args.setup_called = false := by
        cases hx : args.setup_called
        · rfl
        · exact absurd hx hsc
      by_cases hg : args.failed_count = args.addresses_count
      · rw [established_late_emit _ aok cok hch hsc hg]
        simp [hsc, hg, releaseRefCount, isReleaseRef, setupCbCount, isSetupCb]
      · rw [established_late _ _ _ hch hg]
        simp [hsc, hg, releaseRefCount, isReleaseRef, setupCbCount, isSetupCb]
  · by_cases hsc : args.setup_called = true
    · rw [established_err_noemit _ _ _ cok herr hwrap (Or.inl hsc)]
      simp [recordOuts_mem_iff, recordOuts_release_count,
        recordOuts_setup_count, herr, hsc, releaseRefCount, isReleaseRef,
        setupCbCount, isSetupCb, List.countP_append]
      refine ⟨fun hmem => ?_, fun a ha => ?_, fun a ha => ?_⟩
      · have := recordOuts_mem _ _ _ _ hmem; simp at this
      · rw [recordOuts_mem _ _ _ a ha]
      · rw [recordOuts_mem _ _ _ a ha]
    · replace hsc : args.setup_called = false := by
        cases hx : args.setup_called
        · rfl
        · exact absurd hx hsc
      by_cases hg : args.failed_count + 1 = args.addresses_count
      · rw [established_err_emit _ _ _ cok herr hwrap hsc hg]
        simp [recordOuts_mem_iff, recordOuts_release_count,
          recordOuts_setup_count, herr, hsc, hg, releaseRefCount,
          isReleaseRef, setupCbCount, isSetupCb, List.countP_append]
        refine ⟨fun a ha => ?_, fun a ha => ?_⟩
        · rw [recordOuts_mem _ _ _ a ha]
        · rw [recordOuts_mem _ _ _ a ha]
      · rw [established_err_noemit _ _ _ cok herr hwrap (Or.inr hg)]
        simp [recordOuts_mem_iff, recordOuts_release_count,
          recordOuts_setup_count, herr, hsc, hg, releaseRefCount,
          isReleaseRef, setupCbCount, isSetupCb, List.countP_append]
        refine ⟨fun hmem => ?_, fun a ha => ?_, fun a ha => ?_⟩
        · have := recordOuts_mem _ _ _ _ hmem; simp at this
        · rw [recordOuts_mem _ _ _ a ha]
        · rw [recordOuts_mem _ _ _ a ha]

/-- C2 (witness): the amended characterization applied to the concrete
winner-chosen state and a zero-error late completion. -/
theorem c2_amended_witness :
    ((0:Nat) ≠ 0 ∨ c2args.connection_chosen = true) ∧
    c2args.failed_count + 1 < 256 ∧
    ((s_on_client_connection_established c2args 0 true true).1.failed_count =
      (if (0:Nat) ≠ 0 then c2args.failed_count + 1 else c2args.failed_count) ∧
    (ClientOut.recordFailure ∈
        (s_on_client_connection_established c2args 0 true true).2 ↔
      (c2args.domain ≠ SocketDomain.local_ ∧ (0:Nat) ≠ 0 ∧ true = true)) ∧
    ClientOut.socketClose ∈
      (s_on_client_connection_established c2args 0 true true).2 ∧
    ClientOut.socketCleanUp ∈
      (s_on_client_connection_established c2args 0 true true).2 ∧
    ClientOut.socketRelease ∈
      (s_on_client_connection_established c2args 0 true true).2 ∧
    (ClientOut.setupCb 0 false ∈
        (s_on_client_connection_established c2args 0 true true).2 ↔
      ((if (0:Nat) ≠ 0 then c2args.failed_count + 1 else c2args.failed_count) =
          c2args.addresses_count ∧ c2args.setup_called = false)) ∧
    releaseRefCount (s_on_client_connection_established c2args 0 true true).2 =
      (if (if (0:Nat) ≠ 0 then c2args.failed_count + 1 else c2args.failed_count) =
          c2args.addresses_count ∧ c2args.setup_called = false then 2 else 1) ∧
    setupCbCount (s_on_client_connection_established c2args 0 true true).2 =
      (if (if (0:Nat) ≠ 0 then c2args.failed_count + 1 else c2args.failed_count) =
          c2args.addresses_count ∧ c2args.setup_called = false then 1 else 0)) :=
  ⟨Or.inr rfl, by decide,
    c2_amended c2args 0 true true (Or.inr rfl) (by decide)⟩

/-- C3: client TLS negotiation result: on success (with no ALPN callback
configured) the user's setup callback is delivered with the channel and the
channel is not shut down from this path; on a nonzero error the channel is
shut down with that error and no setup callback is delivered from this path
(the user is notified via the shutdown path instead). -/
theorem c3_tls_negotiation (args : ClientConnectionArgs) (err : Nat)
    (hsc : args.setup_called = false) (halpn : args.has_alpn = false) :
    (err = 0 →
      ClientOut.setupCb 0 true ∈
        (s_tls_client_on_negotiation_result args err).2 ∧
      ∀ e, ClientOut.channelShutdown e ∉
        (s_tls_client_on_negotiation_result args err).2) ∧
    (err ≠ 0 →
      ClientOut.channelShutdown err ∈
        (s_tls_client_on_negotiation_result args err).2 ∧
      setupCbCount (s_tls_client_on_negotiation_result args err).2 = 0) := by
  constructor
  · intro h
    subst h
    rw [show s_tls_client_on_negotiation_result args 0 =
        ({ args with setup_called := true
                     ref_count := args.ref_count - 1 },
         (if args.has_user_negotiation_result then
            [ClientOut.userNegotiationResult 0] else []) ++
           [ClientOut.setupCb 0 true, ClientOut.releaseRef]) by
      simp [s_tls_client_on_negotiation_result,
        s_connection_args_setup_callback, hsc,
        s_client_connection_args_release]]
    constructor
    · refine List.mem_append_right _ ?_
      simp
    · intro e hmem
      rcases List.mem_append.mp hmem with h1 | h1
      · split at h1 <;> simp at h1
      · simp at h1
  · intro h
    rw [show s_tls_client_on_negotiation_result args err =
        (args,
         (if args.has_user_negotiation_result then
            [ClientOut.userNegotiationResult err] else []) ++
           [ClientOut.channelShutdown err]) by
      simp [s_tls_client_on_negotiation_result, h]]
    constructor
    · refine List.mem_append_right _ ?_
      simp
    · rw [setupCbCount_append]
      have h1 : setupCbCount (if args.has_user_negotiation_result then
          [ClientOut.userNegotiationResult err] else []) = 0 := by
        split <;> simp [setupCbCount, isSetupCb]
      rw [h1]
      simp [setupCbCount, isSetupCb]

/-- C3 (witness): the negotiation-result contract at the concrete fresh TLS
connection state, for the error code 7. -/
theorem c3_witness :
    ((initArgs 1 true false false SocketDomain.ipv4).setup_called = false ∧
     (initArgs 1 true false false SocketDomain.ipv4).has_alpn = false) ∧
    ((7 = 0 →
      ClientOut.setupCb 0 true ∈
        (s_tls_client_on_negotiation_result
          (initArgs 1 true false false SocketDomain.ipv4) 7).2 ∧
      ∀ e, ClientOut.channelShutdown e ∉
        (s_tls_client_on_negotiation_result
          (initArgs 1 true false false SocketDomain.ipv4) 7).2) ∧
    ((7:Nat) ≠ 0 →
      ClientOut.channelShutdown 7 ∈
        (s_tls_client_on_negotiation_result
          (initArgs 1 true false false SocketDomain.ipv4) 7).2 ∧
      setupCbCount (s_tls_client_on_negotiation_result
        (initArgs 1 true false false SocketDomain.ipv4) 7).2 = 0)) :=
  ⟨⟨by decide, by decide⟩,
    c3_tls_negotiation (initArgs 1 true false false SocketDomain.ipv4) 7
      (by decide) (by decide)⟩

/-- Counting over a constant list. -/
theorem countP_replicate {α : Type} (p : α → Bool) (a : α) (n : Nat) :
    (List.replicate n a).countP p = if p a then n else 0 := by
  induction n with
  | zero => simp
  | succ n ih =>
    rw [List.replicate_succ, List.countP_cons, ih]
    split <;> simp

/-- Counts over the task-scheduling loop's actions. -/
theorem scheduleOuts_count (n : Nat) :
    scheduleCount (scheduleOuts n) = n ∧
    setupCbCount (scheduleOuts n) = 0 ∧
    taskAllocCount (scheduleOuts n) = 0 := by
  induction n with
  | zero =>
    simp [scheduleOuts, scheduleCount, setupCbCount, taskAllocCount]
  | succ n ih =>
    obtain ⟨ih1, ih2, ih3⟩ := ih
    simp only [scheduleOuts, scheduleCount, setupCbCount, taskAllocCount,
      List.countP_cons] at ih1 ih2 ih3 ⊢
    simp [isScheduleAttempt, isSetupCb, isTaskAlloc, ih1, ih2, ih3]

/-- C4: on a successful resolution, `addresses_count` is recorded and the
per-address task data are all allocated before any task is scheduled; if the
allocation loop fails at some index, every allocated task datum is freed, the
setup callback is delivered exactly once with the allocation error, no task
is scheduled, and the state's reference is released; if it succeeds, one task
per address is scheduled and no setup callback is delivered. -/
theorem c4_resolution_all_or_nothing (args : ClientConnectionArgs) (len : Nat)
    (alloc : Nat → TaskAllocOutcome) (allocErr : Nat) (hlen : 0 < len)
    (hsc : args.setup_called = false) (herr : allocErr ≠ 0) :
    (s_on_host_resolved args 0 len alloc allocErr).1.addresses_count =
      len % 256 ∧
    (∀ i, (List.range len).find?
        (fun i => alloc i ≠ TaskAllocOutcome.ok) = some i →
      taskFreeCount (s_on_host_resolved args 0 len alloc allocErr).2 =
        taskAllocCount (s_on_host_resolved args 0 len alloc allocErr).2 ∧
      setupCbCount (s_on_host_resolved args 0 len alloc allocErr).2 = 1 ∧
      ClientOut.setupCb allocErr false ∈
        (s_on_host_resolved args 0 len alloc allocErr).2 ∧
      scheduleCount (s_on_host_resolved args 0 len alloc allocErr).2 = 0 ∧
      (s_on_host_resolved args 0 len alloc allocErr).1.ref_count =
        args.ref_count - 1 ∧
      (s_on_host_resolved args 0 len alloc allocErr).1.setup_called = true) ∧
    ((List.range len).find?
        (fun i => alloc i ≠ TaskAllocOutcome.ok) = none →
      scheduleCount (s_on_host_resolved args 0 len alloc allocErr).2 = len ∧
      taskAllocCount (s_on_host_resolved args 0 len alloc allocErr).2 = len ∧
      setupCbCount (s_on_host_resolved args 0 len alloc allocErr).2 = 0 ∧
      (s_on_host_resolved args 0 len alloc allocErr).1.ref_count =
        args.ref_count + len) := by
  refine ⟨?_, ?_, ?_⟩
  · simp only [s_on_host_resolved]
    rcases hfind : (List.range len).find?
        (fun i => alloc i ≠ TaskAllocOutcome.ok) with _ | i <;>
      simp [hfind, s_connection_args_setup_callback, hsc,
        s_client_connection_args_release]
  · intro i hfind
    replace hfind : List.find?
        (fun i => !decide (alloc i = TaskAllocOutcome.ok))
        (List.range len) = some i := by simpa using hfind
    simp [s_on_host_resolved, hfind, s_connection_args_setup_callback, hsc,
      s_client_connection_args_release, taskFreeCount, taskAllocCount,
      setupCbCount, scheduleCount, List.countP_append, countP_replicate,
      isTaskAlloc, isTaskDataFree, isSetupCb, isScheduleAttempt,
      List.countP_cons]
  · intro hfind
    replace hfind : List.find?
        (fun i => !decide (alloc i = TaskAllocOutcome.ok))
        (List.range len) = none := by simpa using hfind
    obtain ⟨hs1, hs2, hs3⟩ := scheduleOuts_count len
    simp only [taskAllocCount, setupCbCount, scheduleCount] at hs1 hs2 hs3 ⊢
    simp [s_on_host_resolved, hfind, List.countP_append, countP_replicate,
      isTaskAlloc, isSetupCb, isScheduleAttempt, hs1, hs2, hs3]

/-- C4 (witness): two addresses with the second task-datum calloc failing:
one datum allocated and freed, one setup delivery with the allocation error,
nothing scheduled. -/
theorem c4_witness :
    ((0:Nat) < 2 ∧ (initArgs 2 false false false SocketDomain.ipv4).setup_called = false ∧
      (5:Nat) ≠ 0) ∧
    ((s_on_host_resolved (initArgs 2 false false false SocketDomain.ipv4) 0 2
        (fun i => if i = 1 then TaskAllocOutcome.callocFailed else
          TaskAllocOutcome.ok) 5).1.addresses_count = 2 % 256 ∧
    (∀ i, (List.range 2).find?
        (fun i => (if i = 1 then TaskAllocOutcome.callocFailed else
          TaskAllocOutcome.ok) ≠ TaskAllocOutcome.ok) = some i →
      taskFreeCount (s_on_host_resolved
          (initArgs 2 false false false SocketDomain.ipv4) 0 2
          (fun i => if i = 1 then TaskAllocOutcome.callocFailed else
            TaskAllocOutcome.ok) 5).2 =
        taskAllocCount (s_on_host_resolved
          (initArgs 2 false false false SocketDomain.ipv4) 0 2
          (fun i => if i = 1 then TaskAllocOutcome.callocFailed else
            TaskAllocOutcome.ok) 5).2 ∧
      setupCbCount (s_on_host_resolved
          (initArgs 2 false false false SocketDomain.ipv4) 0 2
          (fun i => if i = 1 then TaskAllocOutcome.callocFailed else
            TaskAllocOutcome.ok) 5).2 = 1 ∧
      ClientOut.setupCb 5 false ∈
        (s_on_host_resolved (initArgs 2 false false false SocketDomain.ipv4)
          0 2 (fun i => if i = 1 then TaskAllocOutcome.callocFailed else
            TaskAllocOutcome.ok) 5).2 ∧
      scheduleCount (s_on_host_resolved
          (initArgs 2 false false false SocketDomain.ipv4) 0 2
          (fun i => if i = 1 then TaskAllocOutcome.callocFailed else
            TaskAllocOutcome.ok) 5).2 = 0 ∧
      (s_on_host_resolved (initArgs 2 false false false SocketDomain.ipv4) 0 2
        (fun i => if i = 1 then TaskAllocOutcome.callocFailed else
          TaskAllocOutcome.ok) 5).1.ref_count =
        (initArgs 2 false false false SocketDomain.ipv4).ref_count - 1 ∧
      (s_on_host_resolved (initArgs 2 false false false SocketDomain.ipv4) 0 2
        (fun i => if i = 1 then TaskAllocOutcome.callocFailed else
          TaskAllocOutcome.ok) 5).1.setup_called = true) ∧
    ((List.range 2).find?
        (fun i => (if i = 1 then TaskAllocOutcome.callocFailed else
          TaskAllocOutcome.ok) ≠ TaskAllocOutcome.ok) = none →
      scheduleCount (s_on_host_resolved
          (initArgs 2 false false false SocketDomain.ipv4) 0 2
          (fun i => if i = 1 then TaskAllocOutcome.callocFailed else
            TaskAllocOutcome.ok) 5).2 = 2 ∧
      taskAllocCount (s_on_host_resolved
          (initArgs 2 false false false SocketDomain.ipv4) 0 2
          (fun i => if i = 1 then TaskAllocOutcome.callocFailed else
            TaskAllocOutcome.ok) 5).2 = 2 ∧
      setupCbCount (s_on_host_resolved
          (initArgs 2 false false false SocketDomain.ipv4) 0 2
          (fun i => if i = 1 then TaskAllocOutcome.callocFailed else
            TaskAllocOutcome.ok) 5).2 = 0 ∧
      (s_on_host_resolved (initArgs 2 false false false SocketDomain.ipv4) 0 2
        (fun i => if i = 1 then TaskAllocOutcome.callocFailed else
          TaskAllocOutcome.ok) 5).1.ref_count =
        (initArgs 2 false false false SocketDomain.ipv4).ref_count + 2)) :=
  ⟨⟨by decide, by decide, by decide⟩,
    c4_resolution_all_or_nothing (initArgs 2 false false false SocketDomain.ipv4)
      2 (fun i => if i = 1 then TaskAllocOutcome.callocFailed else
        TaskAllocOutcome.ok) 5 (by decide) (by decide) (by decide)⟩

/-- A cancelled attempt dispatch always bumps `failed_count` by one and never
touches `addresses_count`. -/
theorem s_attempt_cancelled_counters (args : ClientConnectionArgs)
    (hwrap : args.failed_count + 1 < 256) :
    (s_attempt_connection args AttemptOutcome.cancelled).1.failed_count =
      args.failed_count + 1 ∧
    (s_attempt_connection args AttemptOutcome.cancelled).1.addresses_count =
      args.addresses_count := by
  show (s_attempt_fail_path args 0 []).1.failed_count = args.failed_count + 1 ∧
    (s_attempt_fail_path args 0 []).1.addresses_count = args.addresses_count
  by_cases hsc : args.setup_called = true
  · rw [s_attempt_fail_path_called _ _ _ hwrap hsc]
    exact ⟨rfl, rfl⟩
  · replace hsc : args.setup_called = false := by
      cases h : args.setup_called
      · rfl
      · exact absurd h hsc
    by_cases hgate : args.failed_count + 1 = args.addresses_count
    · rw [s_attempt_fail_path_gate _ _ _ hwrap hgate hsc]
      exact ⟨rfl, rfl⟩
    · rw [s_attempt_fail_path_nogate _ _ _ hwrap hgate]
      exact ⟨rfl, rfl⟩

/-- C9: a cancelled `attempt_connection` dispatch increments `failed_count`
while leaving the local error code at 0; when it was the last outstanding
attempt and setup is still pending, the setup callback is invoked with error
code 0 and a null channel. -/
theorem c9_cancelled_attempt (args : ClientConnectionArgs)
    (hwrap : args.failed_count + 1 < 256) :
    (s_attempt_connection args AttemptOutcome.cancelled).1.failed_count =
      args.failed_count + 1 ∧
    (args.failed_count + 1 = args.addresses_count →
      args.setup_called = false →
      ClientOut.setupCb 0 false ∈
        (s_attempt_connection args AttemptOutcome.cancelled).2) := by
  refine ⟨(s_attempt_cancelled_counters args hwrap).1, ?_⟩
  intro hg hsc
  show ClientOut.setupCb 0 false ∈ (s_attempt_fail_path args 0 []).2
  rw [s_attempt_fail_path_gate _ _ _ hwrap hg hsc]
  simp

/-- C9 (witness): one address, its attempt task dispatched cancelled: setup
fires with error code 0 and no channel. -/
theorem c9_witness :
    (initArgs 1 false false false SocketDomain.ipv4).failed_count + 1 < 256 ∧
    ((s_attempt_connection (initArgs 1 false false false SocketDomain.ipv4)
        AttemptOutcome.cancelled).1.failed_count =
      (initArgs 1 false false false SocketDomain.ipv4).failed_count + 1 ∧
    ((initArgs 1 false false false SocketDomain.ipv4).failed_count + 1 =
      (initArgs 1 false false false SocketDomain.ipv4).addresses_count →
      (initArgs 1 false false false SocketDomain.ipv4).setup_called = false →
      ClientOut.setupCb 0 false ∈
        (s_attempt_connection (initArgs 1 false false false SocketDomain.ipv4)
          AttemptOutcome.cancelled).2)) :=
  ⟨by decide,
    c9_cancelled_attempt (initArgs 1 false false false SocketDomain.ipv4)
      (by decide)⟩

/-- Iterated cancelled failures: the counter climbs one per failure (below
the wrap bound) and `addresses_count` is untouched. -/
theorem failK_counters (args : ClientConnectionArgs) (k : Nat)
    (hfc : args.failed_count = 0) (hk : k ≤ 255) :
    (failK args k).failed_count = k ∧
    (failK args k).addresses_count = args.addresses_count := by
  induction k with
  | zero => simp [failK, hfc]
  | succ k ih =>
    obtain ⟨ih1, ih2⟩ := ih (by omega)
    have h := s_attempt_cancelled_counters (failK args k) (by omega)
    refine ⟨?_, ?_⟩
    · show (s_attempt_connection (failK args k)
        AttemptOutcome.cancelled).1.failed_count = k + 1
      omega
    · show (s_attempt_connection (failK args k)
        AttemptOutcome.cancelled).1.addresses_count = args.addresses_count
      omega

/-- C10: on a successful resolution of more than 255 addresses, the 8-bit
`addresses_count` stores the list length modulo 256 while one task per
address is still scheduled, so the stored count differs from the number of
scheduled attempts; and the `failed_count == addresses_count` completion gate
no longer means completion: after `len % 256` failures (fewer than `len`) the
gate condition already holds. -/
theorem c10_counter_truncation (len : Nat) (args : ClientConnectionArgs)
    (hlen : 255 < len) (hfc : args.failed_count = 0) :
    (s_on_host_resolved args 0 len (fun _ => TaskAllocOutcome.ok) 1).1.addresses_count =
      len % 256 ∧
    (s_on_host_resolved args 0 len (fun _ => TaskAllocOutcome.ok) 1).1.addresses_count ≠
      len ∧
    scheduleCount
      (s_on_host_resolved args 0 len (fun _ => TaskAllocOutcome.ok) 1).2 = len ∧
    len % 256 < len ∧
    (failK (s_on_host_resolved args 0 len (fun _ => TaskAllocOutcome.ok) 1).1
        (len % 256)).failed_count =
      (failK (s_on_host_resolved args 0 len (fun _ => TaskAllocOutcome.ok) 1).1
        (len % 256)).addresses_count := by
  have hfind : List.find? (fun _ : Nat => false) (List.range len) = none := by
    rw [List.find?_eq_none]
    intro x _
    simp
  have hres : s_on_host_resolved args 0 len (fun _ => TaskAllocOutcome.ok) 1 =
      ({ { args with addresses_count := len % 256 } with
          ref_count := { args with addresses_count := len % 256 }.ref_count + len },
        List.replicate len ClientOut.taskAlloc ++ scheduleOuts len) := by
    simp [s_on_host_resolved, hfind]
  rw [hres]
  obtain ⟨hs1, hs2, hs3⟩ := scheduleOuts_count len
  have hmod : len % 256 < 256 := Nat.mod_lt _ (by omega)
  have hcnt := failK_counters
    ({ { args with addresses_count := len % 256 } with
        ref_count := { args with addresses_count := len % 256 }.ref_count + len })
    (len % 256) (by simp [hfc]) (by omega)
  refine ⟨by simp, by simp; omega, ?_, by omega, ?_⟩
  · simp [scheduleCount, List.countP_append, countP_replicate,
      isScheduleAttempt] at hs1 ⊢
    exact hs1
  · obtain ⟨hc1, hc2⟩ := hcnt
    rw [hc1, hc2]

/-- C10 (witness): 257 resolved addresses: the stored count is 1, 257 tasks
are scheduled, and after a single failure the completion gate already
holds. -/
theorem c10_witness :
    (255 < 257 ∧
      (initArgs 1 false false false SocketDomain.ipv4).failed_count = 0) ∧
    ((s_on_host_resolved (initArgs 1 false false false SocketDomain.ipv4) 0 257
        (fun _ => TaskAllocOutcome.ok) 1).1.addresses_count = 257 % 256 ∧
    (s_on_host_resolved (initArgs 1 false false false SocketDomain.ipv4) 0 257
        (fun _ => TaskAllocOutcome.ok) 1).1.addresses_count ≠ 257 ∧
    scheduleCount (s_on_host_resolved
        (initArgs 1 false false false SocketDomain.ipv4) 0 257
        (fun _ => TaskAllocOutcome.ok) 1).2 = 257 ∧
    257 % 256 < 257 ∧
    (failK (s_on_host_resolved (initArgs 1 false false false SocketDomain.ipv4)
        0 257 (fun _ => TaskAllocOutcome.ok) 1).1 (257 % 256)).failed_count =
      (failK (s_on_host_resolved (initArgs 1 false false false SocketDomain.ipv4)
        0 257 (fun _ => TaskAllocOutcome.ok) 1).1 (257 % 256)).addresses_count) :=
  ⟨⟨by decide, by decide⟩,
    c10_counter_truncation 257 (initArgs 1 false false false SocketDomain.ipv4)
      (by decide) (by decide)⟩

/-- The reference-release action block contains no incoming callback. -/
theorem server_release_outs (args : ServerConnectionArgs) :
    incomingCbCount (s_server_connection_args_release args).2 = 0 ∧
    ∀ e ch, ServerOut.incomingCb e ch ∉
      (s_server_connection_args_release args).2 := by
  unfold s_server_connection_args_release
  constructor
  · simp only [incomingCbCount, List.countP_cons]
    split <;> simp [isIncomingCb]
  · intro e ch h
    simp only [List.mem_cons] at h
    rcases h with h | h
    · simp at h
    · split at h <;> simp at h

/-- The server invariant is preserved by every valid channel-chain step. -/
theorem stepServer_inv (s : SState) (acc : List ServerOut) (e : SEvent)
    (hInv : ServerInv s acc) (hv : validSEventB s e = true) :
    ServerInv (stepServer s e).1 (acc ++ (stepServer s e).2) := by
  have hacc := hInv.count_eq
  obtain ⟨hrel1, hrel2⟩ := server_release_outs s.args
  cases e with
  | chanSetup error build =>
    have hph : s.phase = Phase.awaitSetup := by simpa [validSEventB] using hv
    have hinc : s.cd.incoming_called = false := hInv.pre_incoming (Or.inl hph)
    by_cases herr : error = 0
    · subst herr
      cases build with
      | ok =>
        by_cases htls : s.args.use_tls = true
        · constructor
          · intro h
            have h2 : (if (0:Nat) = 0 then
                (if s.args.use_tls then Phase.awaitNegotiation else Phase.live)
                else Phase.closed) = Phase.awaitSetup ∨
                (if (0:Nat) = 0 then
                (if s.args.use_tls then Phase.awaitNegotiation else Phase.live)
                else Phase.closed) = Phase.awaitNegotiation ∨
                (if (0:Nat) = 0 then
                (if s.args.use_tls then Phase.awaitNegotiation else Phase.live)
                else Phase.closed) = Phase.awaitShutdownFail := h
            simpa [stepServer, s_on_server_channel_on_setup_completed, htls]
              using hinc
          · intro h
            rcases h with h | h <;>
              · have h2 := h
                simp [stepServer, htls] at h2
          · simpa [stepServer, s_on_server_channel_on_setup_completed, htls,
              incomingCbCount] using hacc
          · intro e2 ch he
            simp only [stepServer, s_on_server_channel_on_setup_completed,
              htls] at he
            simp only [if_pos, List.append_nil] at he
            exact hInv.dichotomy e2 ch (by simpa using he)
        · have htls2 : s.args.use_tls = false := by
            cases hx : s.args.use_tls
            · rfl
            · exact absurd hx htls
          rw [show stepServer s (SEvent.chanSetup 0 ChannelBuildOutcome.ok) =
              ({ cd := { incoming_called := true }, args := s.args
                 phase := Phase.live },
               [ServerOut.incomingCb 0 true]) by
            simp [stepServer, s_on_server_channel_on_setup_completed, htls2,
              s_server_incoming_callback]]
          constructor
          · intro h; rcases h with h | h | h <;> simp at h
          · intro _; rfl
          · rw [incomingCbCount_append, hacc]
            simp [hinc, incomingCbCount, isIncomingCb]
          · intro e2 ch he
            rcases List.mem_append.mp he with h | h
            · exact hInv.dichotomy e2 ch h
            · simp at h
              exact Or.inl ⟨h.1, h.2⟩
      | failed e2 =>
        rw [show stepServer s (SEvent.chanSetup 0 (ChannelBuildOutcome.failed e2)) =
            ({ cd := s.cd, args := s.args, phase := Phase.awaitShutdownFail },
             [ServerOut.channelShutdown e2]) by
          simp [stepServer, s_on_server_channel_on_setup_completed]]
        constructor
        · intro _; exact hinc
        · intro h; rcases h with h | h <;> simp at h
        · rw [incomingCbCount_append, hacc]
          simp [incomingCbCount, isIncomingCb]
        · intro e3 ch he
          rcases List.mem_append.mp he with h | h
          · exact hInv.dichotomy e3 ch h
          · simp at h
    · rw [show stepServer s (SEvent.chanSetup error build) =
          ({ cd := { incoming_called := true },
             args := { s.args with ref_count := s.args.ref_count - 1 },
             phase := Phase.closed },
           [ServerOut.channelDestroy, ServerOut.socketCleanUp,
            ServerOut.socketRelease, ServerOut.incomingCb error false,
            ServerOut.channelDataFree] ++
             (s_server_connection_args_release s.args).2) by
        simp [stepServer, s_on_server_channel_on_setup_completed, herr,
          s_server_incoming_callback, s_server_connection_args_release]]
      constructor
      · intro h; rcases h with h | h | h <;> simp at h
      · intro _; rfl
      · rw [incomingCbCount_append, hacc, incomingCbCount_append, hrel1]
        simp [hinc, incomingCbCount, isIncomingCb]
      · intro e2 ch he
        rcases List.mem_append.mp he with h | h
        · exact hInv.dichotomy e2 ch h
        · rcases List.mem_append.mp h with h1 | h1
          · simp at h1
            exact Or.inr ⟨by
              intro hx
              rw [hx] at h1
              exact herr (h1.1.symm), h1.2⟩
          · exact absurd h1 (hrel2 e2 ch)
  | negotiation err =>
    have hph : s.phase = Phase.awaitNegotiation := by
      simpa [validSEventB] using hv
    have hinc : s.cd.incoming_called = false :=
      hInv.pre_incoming (Or.inr (Or.inl hph))
    by_cases herr : err = 0
    · subst herr
      rw [show stepServer s (SEvent.negotiation 0) =
          ({ cd := { incoming_called := true }, args := s.args
             phase := Phase.live },
           (if s.args.has_user_negotiation_result then
              [ServerOut.userNegotiationResult 0] else []) ++
             [ServerOut.incomingCb 0 true]) by
        simp [stepServer, s_tls_server_on_negotiation_result,
          s_server_incoming_callback]]
      constructor
      · intro h; rcases h with h | h | h <;> simp at h
      · intro _; rfl
      · rw [incomingCbCount_append, hacc, incomingCbCount_append]
        have h1 : incomingCbCount (if s.args.has_user_negotiation_result then
            [ServerOut.userNegotiationResult 0] else []) = 0 := by
          split <;> simp [incomingCbCount, isIncomingCb]
        rw [h1]
        simp [hinc, incomingCbCount, isIncomingCb]
      · intro e2 ch he
        rcases List.mem_append.mp he with h | h
        · exact hInv.dichotomy e2 ch h
        · rcases List.mem_append.mp h with h1 | h1
          · split at h1 <;> simp at h1
          · simp at h1
            exact Or.inl ⟨h1.1, h1.2⟩
    · rw [show stepServer s (SEvent.negotiation err) =
          ({ cd := s.cd, args := s.args, phase := Phase.awaitShutdownFail },
           (if s.args.has_user_negotiation_result then
              [ServerOut.userNegotiationResult err] else []) ++
             [ServerOut.channelShutdown err]) by
        simp [stepServer, s_tls_server_on_negotiation_result, herr]]
      constructor
      · intro _; exact hinc
      · intro h; rcases h with h | h <;> simp at h
      · rw [incomingCbCount_append, hacc, incomingCbCount_append]
        have h1 : incomingCbCount (if s.args.has_user_negotiation_result then
            [ServerOut.userNegotiationResult err] else []) = 0 := by
          split <;> simp [incomingCbCount, isIncomingCb]
        rw [h1]
        simp [incomingCbCount, isIncomingCb]
      · intro e2 ch he
        rcases List.mem_append.mp he with h | h
        · exact hInv.dichotomy e2 ch h
        · rcases List.mem_append.mp h with h1 | h1
          · split at h1 <;> simp at h1
          · simp at h1
  | chanShutdown error =>
    have hph : s.phase = Phase.awaitShutdownFail ∨ s.phase = Phase.live := by
      simpa [validSEventB] using hv
    rcases hph with hph | hph
    · have hinc : s.cd.incoming_called = false :=
        hInv.pre_incoming (Or.inr (Or.inr hph))
      have hec : (if error ≠ 0 then error else AWS_ERROR_UNKNOWN) ≠ 0 := by
        split
        · assumption
        · simp [AWS_ERROR_UNKNOWN]
      rw [show stepServer s (SEvent.chanShutdown error) =
          ({ cd := { incoming_called := true },
             args := { s.args with ref_count := s.args.ref_count - 1 },
             phase := Phase.closed },
           [ServerOut.incomingCb
              (if error ≠ 0 then error else AWS_ERROR_UNKNOWN) false,
            ServerOut.channelDestroy, ServerOut.socketCleanUp,
            ServerOut.socketRelease] ++
             ((s_server_connection_args_release s.args).2 ++
               [ServerOut.channelDataFree])) by
        simp [stepServer, s_on_server_channel_on_shutdown, hinc,
          s_server_incoming_callback, s_server_connection_args_release]]
      constructor
      · intro h; rcases h with h | h | h <;> simp at h
      · intro _; rfl
      · rw [incomingCbCount_append, hacc]
        simp only [incomingCbCount, List.countP_append, List.countP_cons]
        have h1 : (s_server_connection_args_release s.args).2.countP
            isIncomingCb = 0 := hrel1
        simp [hinc, isIncomingCb, h1]
      · intro e2 ch he
        rcases List.mem_append.mp he with h | h
        · exact hInv.dichotomy e2 ch h
        · rcases List.mem_append.mp h with h1 | h1
          · simp at h1
            have hec2 : (if error = 0 then AWS_ERROR_UNKNOWN else error) ≠ 0 := by
              split
              · simp [AWS_ERROR_UNKNOWN]
              · assumption
            refine Or.inr ⟨?_, h1.2⟩
            intro hx
            rw [hx] at h1
            exact hec2 h1.1.symm
          · rcases List.mem_append.mp h1 with h2 | h2
            · exact absurd h2 (hrel2 e2 ch)
            · simp at h2
    · have hinc : s.cd.incoming_called = true :=
        hInv.done_incoming (Or.inl hph)
      rw [show stepServer s (SEvent.chanShutdown error) =
          ({ cd := s.cd,
             args := { s.args with ref_count := s.args.ref_count - 1 },
             phase := Phase.closed },
           [ServerOut.shutdownCb error, ServerOut.channelDestroy,
            ServerOut.socketCleanUp, ServerOut.socketRelease] ++
             ((s_server_connection_args_release s.args).2 ++
               [ServerOut.channelDataFree])) by
        simp [stepServer, s_on_server_channel_on_shutdown, hinc,
          s_server_incoming_callback, s_server_connection_args_release]]
      constructor
      · intro h; rcases h with h | h | h <;> simp at h
      · intro _; exact hinc
      · rw [incomingCbCount_append, hacc]
        simp only [incomingCbCount, List.countP_append, List.countP_cons]
        have h1 : (s_server_connection_args_release s.args).2.countP
            isIncomingCb = 0 := hrel1
        simp [hinc, isIncomingCb, h1]
      · intro e2 ch he
        rcases List.mem_append.mp he with h | h
        · exact hInv.dichotomy e2 ch h
        · rcases List.mem_append.mp h with h1 | h1
          · simp at h1
          · rcases List.mem_append.mp h1 with h2 | h2
            · exact absurd h2 (hrel2 e2 ch)
            · simp at h2

/-- The server invariant holds after any valid channel-chain run. -/
theorem runServer_inv (es : List SEvent) (s : SState) (acc : List ServerOut)
    (hInv : ServerInv s acc) (hv : validSRunB s es = true) :
    ServerInv (runServer s es).1 (acc ++ (runServer s es).2) := by
  induction es generalizing s acc with
  | nil => simpa [runServer] using hInv
  | cons e es ih =>
    simp only [validSRunB, Bool.and_eq_true] at hv
    have h1 := stepServer_inv s acc e hInv hv.1
    have h2 := ih (stepServer s e).1 (acc ++ (stepServer s e).2) h1 hv.2
    simpa [runServer, List.append_assoc] using h2

/-- C5: the user's incoming callback fires exactly once per accepted
connection: with a channel on successful setup (or TLS negotiation success),
or with a nonzero error and a null channel on an accept failure, a
post-accept failure, a setup failure, or a shutdown that occurs before the
incoming callback was delivered. -/
theorem c5_incoming_exactly_once (args : ServerConnectionArgs)
    (o : AcceptOutcome) (es : List SEvent)
    (hv : acceptRunValidB args o es = true) :
    incomingCbCount (acceptAndRun args o es) = 1 ∧
    ∀ e ch, ServerOut.incomingCb e ch ∈ acceptAndRun args o es →
      (e = 0 ∧ ch = true) ∨ (e ≠ 0 ∧ ch = false) := by
  obtain ⟨hrel1, hrel2⟩ :=
    server_release_outs (s_server_connection_args_acquire args).1
  cases o with
  | acceptError e2 =>
    simp only [acceptRunValidB, acceptErrNonzeroB, Bool.and_eq_true,
      decide_eq_true_eq] at hv
    have he := hv.1
    rw [show acceptAndRun args (AcceptOutcome.acceptError e2) es =
        [ServerOut.acquireRef, ServerOut.incomingCb e2 false] ++
          (s_server_connection_args_release
            (s_server_connection_args_acquire args).1).2 by
      simp [acceptAndRun, s_on_server_connection_result,
        s_server_connection_args_acquire]]
    constructor
    · rw [incomingCbCount_append, hrel1]
      simp [incomingCbCount, isIncomingCb]
    · intro e ch hmem
      rcases List.mem_append.mp hmem with h | h
      · simp at h
        exact Or.inr ⟨by
          intro hx
          rw [hx] at h
          exact he h.1.symm, h.2⟩
      · exact absurd h (hrel2 e ch)
  | allocFailed e2 =>
    simp only [acceptRunValidB, acceptErrNonzeroB, Bool.and_eq_true,
      decide_eq_true_eq] at hv
    have he := hv.1
    rw [show acceptAndRun args (AcceptOutcome.allocFailed e2) es =
        [ServerOut.acquireRef, ServerOut.incomingCb e2 false,
         ServerOut.socketCleanUp, ServerOut.socketRelease] ++
          (s_server_connection_args_release
            (s_server_connection_args_acquire args).1).2 by
      simp [acceptAndRun, s_on_server_connection_result,
        s_server_connection_args_acquire]]
    constructor
    · rw [incomingCbCount_append, hrel1]
      simp [incomingCbCount, isIncomingCb]
    · intro e ch hmem
      rcases List.mem_append.mp hmem with h | h
      · simp at h
        exact Or.inr ⟨by
          intro hx
          rw [hx] at h
          exact he h.1.symm, h.2⟩
      · exact absurd h (hrel2 e ch)
  | assignFailed e2 =>
    simp only [acceptRunValidB, acceptErrNonzeroB, Bool.and_eq_true,
      decide_eq_true_eq] at hv
    have he := hv.1
    rw [show acceptAndRun args (AcceptOutcome.assignFailed e2) es =
        [ServerOut.acquireRef, ServerOut.channelDataFree,
         ServerOut.incomingCb e2 false, ServerOut.socketCleanUp,
         ServerOut.socketRelease] ++
          (s_server_connection_args_release
            (s_server_connection_args_acquire args).1).2 by
      simp [acceptAndRun, s_on_server_connection_result,
        s_server_connection_args_acquire]]
    constructor
    · rw [incomingCbCount_append, hrel1]
      simp [incomingCbCount, isIncomingCb]
    · intro e ch hmem
      rcases List.mem_append.mp hmem with h | h
      · simp at h
        exact Or.inr ⟨by
          intro hx
          rw [hx] at h
          exact he h.1.symm, h.2⟩
      · exact absurd h (hrel2 e ch)
  | channelNewFailed e2 =>
    simp only [acceptRunValidB, acceptErrNonzeroB, Bool.and_eq_true,
      decide_eq_true_eq] at hv
    have he := hv.1
    rw [show acceptAndRun args (AcceptOutcome.channelNewFailed e2) es =
        [ServerOut.acquireRef, ServerOut.channelDataFree,
         ServerOut.incomingCb e2 false, ServerOut.socketCleanUp,
         ServerOut.socketRelease] ++
          (s_server_connection_args_release
            (s_server_connection_args_acquire args).1).2 by
      simp [acceptAndRun, s_on_server_connection_result,
        s_server_connection_args_acquire]]
    constructor
    · rw [incomingCbCount_append, hrel1]
      simp [incomingCbCount, isIncomingCb]
    · intro e ch hmem
      rcases List.mem_append.mp hmem with h | h
      · simp at h
        exact Or.inr ⟨by
          intro hx
          rw [hx] at h
          exact he h.1.symm, h.2⟩
      · exact absurd h (hrel2 e ch)
  | ok =>
    have hinit : ServerInv
        { cd := { incoming_called := false }
          args := (s_server_connection_args_acquire args).1
          phase := Phase.awaitSetup } [] := by
      constructor
      · intro _; rfl
      · intro h; rcases h with h | h <;> simp at h
      · simp [incomingCbCount]
      · intro e ch h; simp at h
    simp only [acceptRunValidB, acceptErrNonzeroB, Bool.and_eq_true,
      decide_eq_true_eq] at hv
    have hv2 := hv.2
    rw [show s_on_server_connection_result args AcceptOutcome.ok =
        ((s_server_connection_args_acquire args).1,
          some { incoming_called := false }, [ServerOut.acquireRef]) by
      simp [s_on_server_connection_result,
        s_server_connection_args_acquire]] at hv2
    simp only [Bool.and_eq_true, decide_eq_true_eq] at hv2
    have hfin := runServer_inv es
      { cd := { incoming_called := false }
        args := (s_server_connection_args_acquire args).1
        phase := Phase.awaitSetup } [] hinit hv2.1
    simp only [List.nil_append] at hfin
    have hincfin := hfin.done_incoming (Or.inr hv2.2)
    rw [show acceptAndRun args AcceptOutcome.ok es =
        [ServerOut.acquireRef] ++
          (runServer
            { cd := { incoming_called := false }
              args := (s_server_connection_args_acquire args).1
              phase := Phase.awaitSetup } es).2 by
      simp [acceptAndRun, s_on_server_connection_result,
        s_server_connection_args_acquire]]
    constructor
    · rw [incomingCbCount_append]
      rw [hfin.count_eq, hincfin]
      simp [incomingCbCount, isIncomingCb]
    · intro e ch hmem
      rcases List.mem_append.mp hmem with h | h
      · simp at h
      · exact hfin.dichotomy e ch h

/-- C5 (witness): a plain accepted connection whose channel comes up and is
later shut down: the incoming callback fires exactly once, with the
channel. -/
theorem c5_witness :
    acceptRunValidB serverArgs0 AcceptOutcome.ok
      [SEvent.chanSetup 0 ChannelBuildOutcome.ok, SEvent.chanShutdown 0] =
      true ∧
    (incomingCbCount (acceptAndRun serverArgs0 AcceptOutcome.ok
        [SEvent.chanSetup 0 ChannelBuildOutcome.ok,
         SEvent.chanShutdown 0]) = 1 ∧
    ∀ e ch, ServerOut.incomingCb e ch ∈ acceptAndRun serverArgs0
        AcceptOutcome.ok
        [SEvent.chanSetup 0 ChannelBuildOutcome.ok, SEvent.chanShutdown 0] →
      (e = 0 ∧ ch = true) ∨ (e ≠ 0 ∧ ch = false)) :=
  ⟨by decide,
    c5_incoming_exactly_once serverArgs0 AcceptOutcome.ok
      [SEvent.chanSetup 0 ChannelBuildOutcome.ok, SEvent.chanShutdown 0]
      (by decide)⟩

/-- C6: a channel shutdown that arrives before the setup/incoming callback
was delivered notifies the user through that callback with the shutdown's
error code, substituting `AWS_ERROR_UNKNOWN` only for a zero error code;
a nonzero cause is passed through unchanged (and `AWS_ERROR_UNKNOWN` itself
is nonzero). -/
theorem c6_unknown_substitution :
    (∀ (args : ClientConnectionArgs) (err : Nat),
      args.setup_called = false →
      (s_connection_args_shutdown_callback args err).2 =
        [ClientOut.setupCb (if err = 0 then AWS_ERROR_UNKNOWN else err) false,
         ClientOut.releaseRef]) ∧
    (∀ (cd : ServerChannelData) (sargs : ServerConnectionArgs) (err : Nat),
      cd.incoming_called = false →
      ∃ rest, (s_on_server_channel_on_shutdown cd sargs err).2.2 =
        ServerOut.incomingCb (if err = 0 then AWS_ERROR_UNKNOWN else err)
          false :: rest) ∧
    AWS_ERROR_UNKNOWN ≠ 0 := by
  refine ⟨?_, ?_, by decide⟩
  · intro args err hsc
    by_cases h : err = 0 <;>
      simp [s_connection_args_shutdown_callback, hsc, h,
        s_connection_args_setup_callback, s_client_connection_args_release]
  · intro cd sargs err hinc
    refine ⟨[ServerOut.channelDestroy, ServerOut.socketCleanUp,
      ServerOut.socketRelease] ++
        ((s_server_connection_args_release sargs).2 ++
          [ServerOut.channelDataFree]), ?_⟩
    by_cases h : err = 0 <;>
      simp [s_on_server_channel_on_shutdown, hinc,
        s_server_incoming_callback, h]

/-- C6 (witness): the substitution at concrete inputs: a zero error code is
replaced by `AWS_ERROR_UNKNOWN` on the client path, a nonzero one is passed
through on the server path. -/
theorem c6_witness :
    ((initArgs 1 false false false SocketDomain.ipv4).setup_called = false ∧
      (s_connection_args_shutdown_callback
          (initArgs 1 false false false SocketDomain.ipv4) 0).2 =
        [ClientOut.setupCb (if (0:Nat) = 0 then AWS_ERROR_UNKNOWN else 0)
           false,
         ClientOut.releaseRef]) ∧
    (({ incoming_called := false } : ServerChannelData).incoming_called =
        false ∧
      ∃ rest, (s_on_server_channel_on_shutdown { incoming_called := false }
          serverArgs0 9).2.2 =
        ServerOut.incomingCb (if (9:Nat) = 0 then AWS_ERROR_UNKNOWN else 9)
          false :: rest) :=
  ⟨⟨by decide,
      c6_unknown_substitution.1
        (initArgs 1 false false false SocketDomain.ipv4) 0 (by decide)⟩,
    ⟨rfl, c6_unknown_substitution.2.1 { incoming_called := false }
      serverArgs0 9 rfl⟩⟩

/-- Applying a refcount op never changes the destroy-callback field. -/
theorem applyRefOp_destroy (args : ServerConnectionArgs) (op : RefOp) :
    (applyRefOp args op).1.has_destroy_callback = args.has_destroy_callback := by
  cases op <;>
    simp [applyRefOp, s_server_connection_args_acquire,
      s_server_connection_args_release]

/-- C7: `destroy_socket_listener` schedules the pre-initialized destroy task
on the listener's event loop; the task stops accepting, cleans up the
listener socket and releases one reference; and over any valid
acquire/release history the destroy callback fires exactly once, at the
release that drops the refcount to zero (and never otherwise). -/
theorem c7_destroy_listener :
    (∀ args : ServerConnectionArgs,
      aws_server_bootstrap_destroy_socket_listener args =
        [ServerOut.scheduleDestroyTask args.listener_loop]) ∧
    (∀ args : ServerConnectionArgs,
      (s_listener_destroy_task args).1.ref_count = args.ref_count - 1 ∧
      (s_listener_destroy_task args).2 =
        [ServerOut.stopAccept, ServerOut.listenerCleanUp,
         ServerOut.releaseRef] ++
          (if args.ref_count = 1 ∧ args.has_destroy_callback then
            [ServerOut.destroyCb] else [])) ∧
    (∀ (args : ServerConnectionArgs) (ops : List RefOp),
      validRefOpsB args ops = true → 0 < args.ref_count →
      destroyCbCount (runRefOps args ops).2 =
        (if (runRefOps args ops).1.ref_count = 0 ∧ args.has_destroy_callback
          then 1 else 0)) := by
  refine ⟨?_, ?_, ?_⟩
  · intro args
    rfl
  · intro args
    refine ⟨rfl, ?_⟩
    simp [s_listener_destroy_task, s_server_connection_args_release]
  · intro args ops
    induction ops generalizing args with
    | nil =>
      intro _ hpos
      have hne : ¬((runRefOps args ([] : List RefOp)).1.ref_count = 0 ∧
          args.has_destroy_callback = true) := by
        rintro ⟨h0, _⟩
        simp [runRefOps] at h0
        omega
      rw [if_neg hne]
      simp [runRefOps, destroyCbCount]
    | cons op rest ih =>
      intro hv hpos
      simp only [validRefOpsB, Bool.and_eq_true, decide_eq_true_eq] at hv
      cases op with
      | acquire =>
        have h2 := ih (applyRefOp args RefOp.acquire).1 hv.2
          (by simp [applyRefOp, s_server_connection_args_acquire])
        show destroyCbCount ((applyRefOp args RefOp.acquire).2 ++
            (runRefOps (applyRefOp args RefOp.acquire).1 rest).2) =
          if (runRefOps (applyRefOp args RefOp.acquire).1 rest).1.ref_count =
              0 ∧ args.has_destroy_callback = true then 1 else 0
        rw [applyRefOp_destroy] at h2
        rw [destroyCbCount, List.countP_append]
        simp only [destroyCbCount] at h2
        rw [h2]
        simp [applyRefOp, s_server_connection_args_acquire, isDestroyCb]
      | release =>
        by_cases hone : args.ref_count = 1
        · have hrest : rest = [] := by
            cases rest with
            | nil => rfl
            | cons op2 rest2 =>
              exfalso
              simp only [validRefOpsB, Bool.and_eq_true,
                decide_eq_true_eq] at hv
              have h3 := hv.2.1
              simp [applyRefOp, s_server_connection_args_release, hone]
                at h3
          subst hrest
          by_cases hd : args.has_destroy_callback = true <;>
            simp [runRefOps, applyRefOp, s_server_connection_args_release,
              hone, destroyCbCount, List.countP_cons, isDestroyCb, hd]
        · have h2 := ih (applyRefOp args RefOp.release).1 hv.2
            (by
              simp [applyRefOp, s_server_connection_args_release]
              omega)
          show destroyCbCount ((applyRefOp args RefOp.release).2 ++
              (runRefOps (applyRefOp args RefOp.release).1 rest).2) =
            if (runRefOps (applyRefOp args RefOp.release).1 rest).1.ref_count =
                0 ∧ args.has_destroy_callback = true then 1 else 0
          rw [applyRefOp_destroy] at h2
          rw [destroyCbCount, List.countP_append]
          simp only [destroyCbCount] at h2
          rw [h2]
          simp [applyRefOp, s_server_connection_args_release, isDestroyCb,
            hone]

/-- C7 (witness): aggregating the three parts at a concrete server state: the
destroy task is scheduled on loop 3, and a single release on a refcount-1
state fires the destroy callback exactly once. -/
theorem c7_witness :
    aws_server_bootstrap_destroy_socket_listener serverArgs0 =
      [ServerOut.scheduleDestroyTask serverArgs0.listener_loop] ∧
    ((s_listener_destroy_task serverArgs0).1.ref_count =
      serverArgs0.ref_count - 1) ∧
    (validRefOpsB serverArgs0 [RefOp.release] = true ∧
      0 < serverArgs0.ref_count ∧
      destroyCbCount (runRefOps serverArgs0 [RefOp.release]).2 =
        (if (runRefOps serverArgs0 [RefOp.release]).1.ref_count = 0 ∧
            serverArgs0.has_destroy_callback then 1 else 0)) :=
  ⟨c7_destroy_listener.1 serverArgs0,
    (c7_destroy_listener.2.1 serverArgs0).1,
    by decide, by decide,
    c7_destroy_listener.2.2 serverArgs0 [RefOp.release] (by decide)
      (by decide)⟩

/-- C8: a non-stream (datagram) socket type passed to
`new_tls_socket_channel` or `new_tls_socket_listener` fails synchronously
with `AWS_IO_SOCKET_INVALID_OPTIONS` before any connection state, socket or
listener resource is created. -/
theorem c8_invalid_options (options : SocketOptions)
    (h : options.type = SocketType.dgram) :
    aws_client_bootstrap_new_tls_socket_channel options =
      (Except.error AWS_IO_SOCKET_INVALID_OPTIONS, []) ∧
    aws_server_bootstrap_new_tls_socket_listener options =
      (Except.error AWS_IO_SOCKET_INVALID_OPTIONS, []) := by
  have h2 : options.type ≠ SocketType.stream := by rw [h]; simp
  constructor <;>
    simp [aws_client_bootstrap_new_tls_socket_channel,
      aws_server_bootstrap_new_tls_socket_listener, h2]

/-- C8 (witness): concrete datagram options are rejected with no resource
events. -/
theorem c8_witness :
    ({ domain := SocketDomain.ipv4, type := SocketType.dgram } :
        SocketOptions).type = SocketType.dgram ∧
    (aws_client_bootstrap_new_tls_socket_channel
        { domain := SocketDomain.ipv4, type := SocketType.dgram } =
      (Except.error AWS_IO_SOCKET_INVALID_OPTIONS, []) ∧
    aws_server_bootstrap_new_tls_socket_listener
        { domain := SocketDomain.ipv4, type := SocketType.dgram } =
      (Except.error AWS_IO_SOCKET_INVALID_OPTIONS, [])) :=
  ⟨rfl, c8_invalid_options
    { domain := SocketDomain.ipv4, type := SocketType.dgram } rfl⟩

end ChannelBootstrap
